import Mathlib

/-!
Verification development for the multi-agent cyber-defense simulator.

The definitions below are a shallow embedding of the Python source:
  * firewall engine     (new/firewall.py, FirewallBehaviour / RouterFirewallBehaviour)
  * router forwarding   (router.py, RouterAgent.RouterBehav)
  * monitor pipeline    (new/monitoring.py, MonitorBehav / CNPInitiatorBehaviour)
  * response agent      (response.py, CNPParticipantBehaviour)
  * node agent          (node.py, RecvBehav / ResourceBehav / worm / lateral movement)

Machine floats used only as wall-clock times, percentages and scores in the
source are modelled as rationals; Python string operations are re-implemented
over lists of characters so that everything is executable and decidable.
-/

namespace IDS

/-! ### Python string primitives -/

/-- Boolean test that the second list is a prefix of the first. -/
def startsWithL : List Char → List Char → Bool
  | _, [] => true
  | [], _ :: _ => false
  | h :: hs, p :: ps => h == p && startsWithL hs ps

/-- Python substring containment: needle occurs contiguously in hay. -/
def containsL : List Char → List Char → Bool
  | [], needle => needle.isEmpty
  | h :: t, needle => startsWithL (h :: t) needle || containsL t needle

/-- Python `needle in hay` on strings. -/
def sContains (hay needle : String) : Bool := containsL hay.data needle.data

/-- Python `s.startswith(p)`. -/
def sStarts (s p : String) : Bool := startsWithL s.data p.data

/-- Python `s.lower()`. -/
def lowerStr (s : String) : String := ⟨s.data.map Char.toLower⟩

/-- Python `s.upper()`. -/
def upperStr (s : String) : String := ⟨s.data.map Char.toUpper⟩

/-- Whitespace recognised by Python `str.strip()` (the subset used here). -/
def isSpaceC (c : Char) : Bool := c == ' ' || c == '\t' || c == '\n' || c == '\r'

/-- Python `s.strip()`. -/
def stripStr (s : String) : String :=
  ⟨((s.data.dropWhile isSpaceC).reverse.dropWhile isSpaceC).reverse⟩

/-- Split a list at the first occurrence of a separator, returning the parts
before and after it; none when the separator does not occur. -/
def breakOn (sep : List Char) : List Char → Option (List Char × List Char)
  | [] => if sep.isEmpty then some ([], []) else none
  | c :: t =>
    if startsWithL (c :: t) sep then some ([], (c :: t).drop sep.length)
    else match breakOn sep t with
      | some (a, b) => some (c :: a, b)
      | none => none

/-- Python `s.split(sep, 1)`. -/
def pySplitOnce (s sep : String) : List String :=
  match breakOn sep.data s.data with
  | some (a, b) => [⟨a⟩, ⟨b⟩]
  | none => [s]

/-- Fuel-driven worker for `pySplit`. -/
def pySplitAux (sep : List Char) : Nat → List Char → List Char → List (List Char)
  | 0, cur, s => [cur.reverse ++ s]
  | fuel + 1, cur, s =>
    if !sep.isEmpty && startsWithL s sep then
      cur.reverse :: pySplitAux sep fuel [] (s.drop sep.length)
    else match s with
      | [] => [cur.reverse]
      | c :: t => pySplitAux sep fuel (c :: cur) t

/-- Python `s.split(sep)` for a nonempty separator. -/
def pySplit (s sep : String) : List String :=
  (pySplitAux sep.data (s.data.length + 1) [] s.data).map (fun l => ⟨l⟩)

/-- Python `s.replace(old, new)`. -/
def pyReplace (s old new : String) : String :=
  String.intercalate new (pySplit s old)

/-- Element of a list of strings, via boolean equality. -/
def memB (x : String) (l : List String) : Bool := l.any (fun y => y == x)

/-- Char digit to value, for decimal parsing. -/
def digitVal (c : Char) : Option Nat :=
  if c.isDigit then some (c.toNat - 48) else none

/-- Parse an unsigned decimal numeral. -/
def parseNatL : List Char → Option Nat
  | [] => none
  | l => l.foldl (fun acc c => match acc, digitVal c with
      | some n, some d => some (n * 10 + d)
      | _, _ => none) (some 0)

/-- Python `int(s)` on well-formed input: optional sign then digits. -/
def parseIntS (s : String) : Option Int :=
  match s.data with
  | '-' :: rest => (parseNatL rest).map (fun n => -(n : Int))
  | l => (parseNatL l).map (fun n => (n : Int))

/-- Parse a decimal fraction such as `30.5` or `30` into a rational;
this is the well-formed-input fragment of Python `float(s)`. -/
def parseRatS (s : String) : Option Rat :=
  match breakOn ['.'] s.data with
  | none =>
    (parseIntS s).map (fun n => (n : Rat))
  | some (a, b) =>
    match parseIntS ⟨a⟩, parseNatL b with
    | some w, some f =>
      let den : Rat := (10 : Rat) ^ b.length
      let frac : Rat := (f : Rat) / den
      some (if w < 0 then (w : Rat) - frac else (w : Rat) + frac)
    | _, _ => none

/-- Python `int(x or d)` for an optional string metadata value: a missing or
empty value yields the default (malformed numerals, which raise in Python,
are also mapped to the default; every claim below uses well-formed values). -/
def pyIntOr (o : Option String) (d : Int) : Int :=
  match o with
  | none => d
  | some s => if s == "" then d else (parseIntS s).getD d

/-- Python `float(x or d)` for an optional string metadata value. -/
def pyRatOr (o : Option String) (d : Rat) : Rat :=
  match o with
  | none => d
  | some s => if s == "" then d else (parseRatS s).getD d

/-! ### Messages -/

/-- A SPADE message: destination, sender, body, and string metadata. -/
structure Msg where
  toJid : Option String := none
  sender : Option String := none
  body : String := ""
  meta : List (String × String) := []
deriving Repr, DecidableEq

/-- Python `msg.get_metadata(k)`: first binding of the key. -/
def getMeta (m : Msg) (k : String) : Option String :=
  (m.meta.find? (fun p => p.1 == k)).map (fun p => p.2)

/-- Lookup in an association list keyed by strings. -/
def lookupA {α : Type} (l : List (String × α)) (k : String) : Option α :=
  (l.find? (fun p => p.1 == k)).map (fun p => p.2)

/-- Python `del d[k]` on an association list. -/
def removeA {α : Type} (l : List (String × α)) (k : String) : List (String × α) :=
  l.filter (fun p => !(p.1 == k))

/-- In-place update of an existing key of an association list. -/
def setA {α : Type} (l : List (String × α)) (k : String) (v : α) : List (String × α) :=
  l.map (fun p => if p.1 == k then (k, v) else p)

/-- Insert or overwrite a key in an association list (Python `d[k] = v`). -/
def putA {α : Type} (l : List (String × α)) (k : String) (v : α) : List (String × α) :=
  if (lookupA l k).isSome then setA l k v else l ++ [(k, v)]

/-- Decidable equality of exception results, for concrete evaluation. -/
instance exceptDecEq {ε α : Type} [DecidableEq ε] [DecidableEq α] :
    DecidableEq (Except ε α) := fun a b =>
  match a, b with
  | .error e, .error f =>
    if h : e = f then .isTrue (by rw [h])
    else .isFalse (fun hc => by cases hc; exact h rfl)
  | .ok x, .ok y =>
    if h : x = y then .isTrue (by rw [h])
    else .isFalse (fun hc => by cases hc; exact h rfl)
  | .error _, .ok _ => .isFalse (fun hc => by cases hc)
  | .ok _, .error _ => .isFalse (fun hc => by cases hc)

/-! ### Firewall engine (new/firewall.py) -/

/-- Rate-limit record: `{max_per_sec, count, last_reset}`. -/
structure RateData where
  maxPerSec : Int
  count : Int
  lastReset : Rat
deriving Repr, DecidableEq

/-- Firewall rule storage shared by both firewall variants. -/
structure FwState where
  blockedJids : List String := []
  blockedKeywords : List String := []
  rateLimits : List (String × RateData) := []
  tempBlocks : List (String × Rat) := []
  suspended : List String := []
deriving Repr, DecidableEq

/-- Keywords scanned by the advisory threat detector. -/
def threatKeywords : List String :=
  ["malware", "virus", "exploit", "trojan", "worm", "ransomware"]

/-- Result of `allow_message`: verdict, updated rules, advisory alerts sent. -/
structure FwOut where
  allowed : Bool
  st : FwState
  alerts : List Msg
deriving Repr, DecidableEq

/-- Truthiness of the Python sender string (None and the empty string are falsy). -/
def sTruthy : Option String → Bool
  | none => false
  | some s => !(s == "")

/-- Whitelist step 1: sender JID contains `response` or `monitor`. -/
def fwWlSender : Option String → Bool
  | none => false
  | some s => !(s == "") && (sContains s "response" || sContains s "monitor")

/-- Whitelist step 2: control protocols bypass the firewall. -/
def fwWlProto (p : Option String) : Bool :=
  p == some "firewall-control" || p == some "threat-alert" || p == some "network-copy"

/-- One rate-limit window update: reset the counter when at least one second
elapsed since `last_reset`, then increment. -/
def rateAfter (now : Rat) (rl : RateData) : RateData :=
  let r1 := if 1 ≤ now - rl.lastReset then { rl with count := 0, lastReset := now } else rl
  { r1 with count := r1.count + 1 }

/-- Final keyword filter and fall-through of `allow_message` (the threat scan
that follows never denies, so the verdict here is final). -/
def allowTail (fw : FwState) (body : String) : Bool × FwState :=
  if fw.blockedKeywords.any (fun kw => !(kw == "") && sContains body kw) then (false, fw)
  else (true, fw)

/-- Permanent-block check of `allow_message`. -/
def allowBlocked (fw : FwState) (s : String) (body : String) : Bool × FwState :=
  if memB s fw.blockedJids then (false, fw) else allowTail fw body

/-- Rate-limit check of `allow_message`, updating the stored counter. -/
def allowRate (fw : FwState) (s : String) (body : String) (now : Rat) : Bool × FwState :=
  match lookupA fw.rateLimits s with
  | some rl =>
    let rl2 := rateAfter now rl
    let fw2 := { fw with rateLimits := setA fw.rateLimits s rl2 }
    if rl.maxPerSec < rl2.count then (false, fw2) else allowBlocked fw2 s body
  | none => allowBlocked fw s body

/-- Sender-keyed checks 3-7 of `allow_message` for an effective sender:
suspended accounts, temporary blocks (expired entries are deleted), rate
limits, permanent blocks, then blocked keywords. -/
def allowCore (fw : FwState) (eff : Option String) (body : String) (now : Rat) :
    Bool × FwState :=
  match eff with
  | none => allowTail fw body
  | some s =>
    if s == "" then allowTail fw body
    else if memB s fw.suspended then (false, fw)
    else match lookupA fw.tempBlocks s with
      | some expiry =>
        if now < expiry then (false, fw)
        else allowRate { fw with tempBlocks := removeA fw.tempBlocks s } s body now
      | none => allowRate fw s body now

/-- Rendering of the Python sender variable inside the alert body. -/
def senderRepr : Option String → String
  | none => "None"
  | some s => s

/-- Advisory threat alert reported to the parent router (`peers[0]`). -/
def threatAlertMsg (router : String) (eff : Option String) (selfJid : String)
    (detected : List String) (body : String) : Msg :=
  { toJid := some router
    body := "THREAT from " ++ senderRepr eff ++ " to " ++ selfJid ++ ": "
      ++ String.intercalate ", " detected ++ " - " ++ ⟨body.data.take 100⟩
    meta := [("protocol", "threat-alert")] }

/-- Advisory threat scan shared by both firewall variants; it never denies. -/
def threatScan (fw : FwState) (peers : List String) (selfJid : String)
    (reportAs : Option String) (body : String) : FwOut :=
  let detected := threatKeywords.filter (fun kw => sContains (lowerStr body) kw)
  if !detected.isEmpty && !peers.isEmpty then
    ⟨true, fw, [threatAlertMsg (peers.headD "") reportAs selfJid detected body]⟩
  else ⟨true, fw, []⟩

/-- Node firewall `FirewallBehaviour.allow_message`: the effective sender is
the direct sender. -/
def nodeAllow (fw : FwState) (peers : List String) (selfJid : String) (now : Rat)
    (m : Msg) : FwOut :=
  if fwWlSender m.sender then ⟨true, fw, []⟩
  else if fwWlProto (getMeta m "protocol") then ⟨true, fw, []⟩
  else
    match allowCore fw m.sender m.body now with
    | (true, fw2) => threatScan fw2 peers selfJid m.sender m.body
    | (false, fw2) => ⟨false, fw2, []⟩

/-- Effective sender of the router firewall: metadata `original_sender`,
falling back to the direct sender when missing or empty. -/
def routerEff (m : Msg) : Option String :=
  match getMeta m "original_sender" with
  | some s => if s == "" then m.sender else some s
  | none => m.sender

/-- Router firewall `RouterFirewallBehaviour.allow_message`: whitelisting uses
the direct sender, every rule check uses the effective sender. -/
def routerAllow (fw : FwState) (peers : List String) (selfJid : String) (now : Rat)
    (m : Msg) : FwOut :=
  if fwWlSender m.sender then ⟨true, fw, []⟩
  else if fwWlProto (getMeta m "protocol") then ⟨true, fw, []⟩
  else
    match allowCore fw (routerEff m) m.body now with
    | (true, fw2) => threatScan fw2 peers selfJid (routerEff m) m.body
    | (false, fw2) => ⟨false, fw2, []⟩

/-! Rule-list reading of the inbound decision (section 4.2 of the spec).
Each predicate is a pure function of the incoming state; the decision is the
outcome of the earliest matching rule. -/

/-- Rule 3: effective sender suspended. -/
def fwSusp (fw : FwState) : Option String → Bool
  | none => false
  | some s => !(s == "") && memB s fw.suspended

/-- Rule 4: effective sender under an unexpired temporary block. -/
def fwTempActive (fw : FwState) (eff : Option String) (now : Rat) : Bool :=
  match eff with
  | none => false
  | some s => !(s == "") &&
      (match lookupA fw.tempBlocks s with
       | some expiry => decide (now < expiry)
       | none => false)

/-- Rule 5: effective sender exceeds its rate limit after the window update. -/
def fwRateExceeded (fw : FwState) (eff : Option String) (now : Rat) : Bool :=
  match eff with
  | none => false
  | some s => !(s == "") &&
      (match lookupA fw.rateLimits s with
       | some rl => decide (rl.maxPerSec < (rateAfter now rl).count)
       | none => false)

/-- Rule 6: effective sender permanently blocked. -/
def fwBlockedHit (fw : FwState) : Option String → Bool
  | none => false
  | some s => !(s == "") && memB s fw.blockedJids

/-- Rule 7 as the code implements it: some nonempty blocked keyword is a
substring of the body. -/
def fwKwHitNE (fw : FwState) (body : String) : Bool :=
  fw.blockedKeywords.any (fun kw => !(kw == "") && sContains body kw)

/-- Rule 7 as the claim words it: some blocked keyword is a substring of the
body (the empty keyword is a substring of every body). -/
def fwKwHitAny (fw : FwState) (body : String) : Bool :=
  fw.blockedKeywords.any (fun kw => sContains body kw)

/-- Rules 3-7 as an earliest-match chain over the incoming state,
parameterised by the keyword-rule predicate. -/
def coreDecisionWith (kwHit : FwState → String → Bool) (fw : FwState)
    (eff : Option String) (body : String) (now : Rat) : Bool :=
  if fwSusp fw eff then false
  else if fwTempActive fw eff now then false
  else if fwRateExceeded fw eff now then false
  else if fwBlockedHit fw eff then false
  else if kwHit fw body then false
  else true

/-- Earliest-matching-rule decision of section 4.2, parameterised by the
keyword-rule predicate. -/
def allowDecisionWith (kwHit : FwState → String → Bool) (fw : FwState)
    (direct eff : Option String) (proto : Option String) (body : String)
    (now : Rat) : Bool :=
  if fwWlSender direct then true
  else if fwWlProto proto then true
  else coreDecisionWith kwHit fw eff body now

/-- Decision of the claim as amended (nonempty keywords). -/
def allowDecisionSpec (fw : FwState) (direct eff proto : Option String)
    (body : String) (now : Rat) : Bool :=
  allowDecisionWith fwKwHitNE fw direct eff proto body now

/-- Decision of the claim as literally stated (any keyword). -/
def allowDecisionClaimed (fw : FwState) (direct eff proto : Option String)
    (body : String) (now : Rat) : Bool :=
  allowDecisionWith fwKwHitAny fw direct eff proto body now

/-- Rate-map update once checking reaches rule 5. -/
def rateUpd (fw : FwState) (s : String) (now : Rat) : FwState :=
  match lookupA fw.rateLimits s with
  | some rl => { fw with rateLimits := setA fw.rateLimits s (rateAfter now rl) }
  | none => fw

/-- Rule-list description of the state after rules 3-7: the expired temporary
block is deleted once checking reaches rule 4, and the rate counter is updated
once checking reaches rule 5. -/
def coreNext (fw : FwState) (eff : Option String) (now : Rat) : FwState :=
  match eff with
  | none => fw
  | some s =>
    if s == "" then fw
    else if memB s fw.suspended then fw
    else match lookupA fw.tempBlocks s with
      | some expiry =>
        if now < expiry then fw
        else rateUpd { fw with tempBlocks := removeA fw.tempBlocks s } s now
      | none => rateUpd fw s now

/-- Rule-list description of the state after the whole decision. -/
def allowNextState (fw : FwState) (direct eff proto : Option String) (now : Rat) :
    FwState :=
  if fwWlSender direct then fw
  else if fwWlProto proto then fw
  else coreNext fw eff now

/-! ### Router forwarding plane (router.py, RouterAgent.RouterBehav.run) -/

/-- Router configuration relevant to one routing step. -/
structure RConf where
  selfJid : String := "router0@localhost"
  monitors : List String := []
  internalMonitors : List String := []
  peers : List String := []
deriving Repr, DecidableEq

/-- Outcome of one routing step for a message on the forwarding plane. -/
structure ROut where
  fw : FwState
  localNodes : List String
  copies : List String := []
  fwdTtl : Option Int := none
  alertForwards : List String := []
  fwAlerts : List Msg := []
deriving Repr, DecidableEq

/-- Destination of a packet: metadata `dst` when present (and metadata
nonempty), otherwise the frame destination; a falsy result drops. -/
def routerDst (m : Msg) : Option String :=
  let d := if !m.meta.isEmpty && (getMeta m "dst").isSome then getMeta m "dst" else m.toJid
  match d with
  | some s => if s == "" then none else some s
  | none => none

/-- Incoming TTL: `int(msg.metadata.get("ttl", 64))`; `none` models the
ValueError raised on a malformed numeral (which aborts the iteration). -/
def routerTtlIn (m : Msg) : Option Int :=
  if m.meta.isEmpty then some 64
  else match getMeta m "ttl" with
    | none => some 64
    | some s => parseIntS s

/-- One forwarding-plane step of `RouterBehav.run` for a message whose
protocol is neither `node-death` nor `threat-alert`: inbound firewall, `dst`
lookup, TTL check and decrement, then monitor mirroring; `fwdTtl` is the TTL
value attached to whichever forward (local, BFS or static) follows. -/
def routerStep (cfg : RConf) (fw : FwState) (localNodes : List String) (now : Rat)
    (m : Msg) : ROut :=
  if getMeta m "protocol" == some "node-death" then
    { fw := fw
      localNodes := localNodes.filter (fun n => !(n == senderRepr m.sender)) }
  else if getMeta m "protocol" == some "threat-alert" then
    { fw := fw, localNodes := localNodes, alertForwards := cfg.monitors }
  else
    let out := routerAllow fw cfg.peers cfg.selfJid now m
    if !out.allowed then
      { fw := out.st, localNodes := localNodes, fwAlerts := out.alerts }
    else
      match routerDst m with
      | none => { fw := out.st, localNodes := localNodes, fwAlerts := out.alerts }
      | some dst =>
        match routerTtlIn m with
        | none => { fw := out.st, localNodes := localNodes, fwAlerts := out.alerts }
        | some ttl =>
          if ttl ≤ 0 then
            { fw := out.st, localNodes := localNodes, fwAlerts := out.alerts }
          else
            let isInternal := !localNodes.isEmpty
              && (match m.sender with
                  | some s => memB s localNodes && memB dst localNodes
                  | none => false)
            let targets := if isInternal && !cfg.internalMonitors.isEmpty
              then cfg.internalMonitors else cfg.monitors
            { fw := out.st
              localNodes := localNodes
              copies := targets
              fwdTtl := some (ttl - 1)
              fwAlerts := out.alerts }

/-! ### Monitor agent (new/monitoring.py) -/

/-- Detection reasons; the source builds formatted strings and later only
tests their prefixes (`rate:`, `high_priority_keyword:`, `keyword_rate:`), so
the constructor carries exactly the data of each string. -/
inductive Reason
  | rate (n : Nat)
  | highKw (kw : String)
  | kwRate (kw : String) (n : Nat)
deriving Repr, DecidableEq

/-- Pending incident record tracked by `pending_cfps`. -/
structure Incident where
  threatType : String
  offenderJid : String
  proposals : List (String × Rat) := []
  status : String := "waiting"
  winner : Option String := none
  deadline : Rat
deriving Repr, DecidableEq

/-- Monitor state shared by `MonitorBehav` and `CNPInitiatorBehaviour`. -/
structure MonState where
  alertedSenders : List (String × Rat) := []
  events : List (String × List Rat) := []
  kwEvents : List (String × List Rat) := []
  messagesAnalyzed : Nat := 0
  pendingCfps : List (String × Incident) := []
  incidentCounter : Nat := 0
deriving Repr, DecidableEq

/-- Monitor configuration. -/
structure MonConf where
  selfJid : String := "monitor0@localhost"
  responseJids : List String := []
  window : Rat := 10
  threshold : Nat := 5
  kwWindow : Rat := 60
  kwThreshold : Nat := 3
deriving Repr, DecidableEq

/-- High-priority keywords (immediate alert). -/
def highPriorityKeywords : List String :=
  ["malware", "virus", "exploit", "trojan", "worm", "ransomware"]

/-- Low-priority keywords (windowed alert). -/
def lowPriorityKeywords : List String :=
  ["failed login", "failed_login", "unauthorized"]

/-- Python `x or d` on an optional string. -/
def pyOrS (o : Option String) (d : String) : String :=
  match o with
  | none => d
  | some s => if s == "" then d else s

/-- Sender attribution of `MonitorBehav.process_message`. -/
def monSenderOf (m : Msg) : String :=
  let s0 :=
    if getMeta m "protocol" == some "network-copy" then
      pyOrS (getMeta m "original_sender") (senderRepr m.sender)
    else
      if sTruthy m.sender then senderRepr m.sender else "unknown"
  if s0 == "" then "unknown" else s0

/-- Start of the CNP auction (`MonitorBehav.initiate_cnp`): record the pending
incident and emit a CFP to every configured response agent. -/
def initiateCnp (cfg : MonConf) (st : MonState) (now : Rat)
    (offender threat : String) : MonState × List Msg :=
  let iid := "incident_" ++ toString st.incidentCounter
  let inc : Incident :=
    { threatType := threat, offenderJid := offender, deadline := now + 2 }
  let st1 : MonState :=
    { st with incidentCounter := st.incidentCounter + 1
              pendingCfps := putA st.pendingCfps iid inc }
  let outs := cfg.responseJids.map (fun r =>
    ({ toJid := some r
       body := "CFP for incident " ++ iid ++ ": " ++ threat ++ " from " ++ offender
       meta := [("protocol", "cnp-cfp"), ("performative", "CFP"),
                ("incident_id", iid), ("threat_type", threat),
                ("severity", "high"), ("offender_jid", offender)] } : Msg))
  (st1, outs)

/-- Traffic analysis of `MonitorBehav.process_message`. The classification
branch dereferences the undefined name `copy_metadata`, so every message that
newly fires an alert ends in a `NameError` (carried here in the error case)
after the sender has been muted; no CFP or auto-block is ever reached on this
path, and a non-suspicious or ignored message returns normally with no
output. -/
def processMessage (cfg : MonConf) (st : MonState) (now : Rat) (m : Msg) :
    MonState × Except String (List Msg) :=
  let sender := monSenderOf m
  if sContains sender "response" || sContains sender "monitor" then (st, .ok [])
  else
    let silenced := lookupA st.alertedSenders sender
    let proceed : Option MonState :=
      match silenced with
      | some expiry =>
        if now < expiry then none
        else some { st with alertedSenders := removeA st.alertedSenders sender }
      | none => some st
    match proceed with
    | none => (st, .ok [])
    | some st0 =>
      let body := lowerStr m.body
      let st1 := { st0 with messagesAnalyzed := st0.messagesAnalyzed + 1 }
      let dq := ((lookupA st1.events sender).getD [] ++ [now]).dropWhile
        (fun ts => ts < now - cfg.window)
      let st2 := { st1 with events := putA st1.events sender dq }
      let reasons0 : List Reason :=
        if cfg.threshold ≤ dq.length then [Reason.rate dq.length] else []
      let reasons1 : List Reason :=
        if reasons0.isEmpty then
          match highPriorityKeywords.find? (fun kw => sContains body kw) with
          | some kw => [Reason.highKw kw]
          | none => []
        else reasons0
      let (st3, reasons) :=
        if reasons1.isEmpty then
          match lowPriorityKeywords.find? (fun kw => sContains body kw) with
          | some kw =>
            let kdq := ((lookupA st2.kwEvents sender).getD [] ++ [now]).dropWhile
              (fun ts => ts < now - cfg.kwWindow)
            let stK := { st2 with kwEvents := putA st2.kwEvents sender kdq }
            if cfg.kwThreshold ≤ kdq.length then (stK, [Reason.kwRate kw kdq.length])
            else (stK, [])
          | none => (st2, [])
        else (st2, reasons1)
      if reasons.isEmpty then (st3, .ok [])
      else
        let st4 := { st3 with alertedSenders := putA st3.alertedSenders sender (now + 15) }
        (st4, .error "NameError: name copy_metadata is not defined")

/-- Offender extraction of the threat-alert branch of `MonitorBehav.run`:
`header.split("from ")[1].split(" to ")[0]` when `from ` occurs. -/
def alertOffender (header : String) : String :=
  if sContains header "from " then
    stripStr (((pySplit ((pySplit header "from ").getD 1 "") " to ").headD ""))
  else "unknown"

/-- Threat-alert branch of `MonitorBehav.run`: parse the offender from the
body, classify by low-priority keywords, and start a CNP auction. There is no
silence-window check on this path. -/
def monitorThreatAlert (cfg : MonConf) (st : MonState) (now : Rat) (m : Msg) :
    MonState × List Msg :=
  let parts := pySplitOnce m.body ":"
  if parts.length == 2 then
    let header := parts.headD ""
    let offender := alertOffender header
    let threat :=
      if lowPriorityKeywords.any (fun kw => sContains (lowerStr m.body) kw) then
        "insider_threat"
      else "malware"
    initiateCnp cfg st now offender threat
  else (st, [])

/-- Main dispatch of `MonitorBehav.run`; the exception raised inside
`process_message` is caught and logged, so its error case yields no output. -/
def monitorRun (cfg : MonConf) (st : MonState) (now : Rat) (m : Msg) :
    MonState × List Msg :=
  if getMeta m "protocol" == some "threat-alert" then monitorThreatAlert cfg st now m
  else
    let r := processMessage cfg st now m
    (r.1, match r.2 with | .ok outs => outs | .error _ => [])

/-- Python `min(proposals, key=score)`: first element with minimal score. -/
def pyMinScore (p : String × Rat) (ps : List (String × Rat)) : String × Rat :=
  ps.foldl (fun b q => if q.2 < b.2 then q else b) p

/-- Contract award (`CNPInitiatorBehaviour.evaluate_proposals`): accept the
best bidder, reject the others, mark the incident awarded. -/
def evaluateProposals (st : MonState) (iid : String) : MonState × List Msg :=
  match lookupA st.pendingCfps iid with
  | none => (st, [])
  | some inc =>
    match inc.proposals with
    | [] => ({ st with pendingCfps := removeA st.pendingCfps iid }, [])
    | p :: ps =>
      let best := pyMinScore p ps
      let winner := best.1
      let accept : Msg :=
        { toJid := some winner
          body := "Contract awarded for incident " ++ iid
          meta := [("protocol", "cnp-accept"), ("performative", "ACCEPT_PROPOSAL"),
                   ("incident_id", iid), ("threat_type", inc.threatType),
                   ("offender_jid", inc.offenderJid)] }
      let rejects := (inc.proposals.filter (fun q => !(q.1 == winner))).map (fun q =>
        ({ toJid := some q.1
           body := "Proposal rejected for incident " ++ iid
           meta := [("protocol", "cnp-reject"), ("performative", "REJECT_PROPOSAL"),
                    ("incident_id", iid)] } : Msg))
      let inc2 := { inc with status := "awarded", winner := some winner }
      ({ st with pendingCfps := setA st.pendingCfps iid inc2 }, accept :: rejects)

/-- Proposal intake (`CNPInitiatorBehaviour.handle_propose`): discard unknown
incidents, append the bid, and evaluate once every responder has replied. -/
def handlePropose (cfg : MonConf) (st : MonState) (m : Msg) : MonState × List Msg :=
  match getMeta m "incident_id" with
  | none => (st, [])
  | some iid =>
    let score := pyRatOr (getMeta m "availability_score") 999
    let bidder := senderRepr m.sender
    match lookupA st.pendingCfps iid with
    | none => (st, [])
    | some inc =>
      let inc1 := { inc with proposals := inc.proposals ++ [(bidder, score)] }
      let st1 := { st with pendingCfps := setA st.pendingCfps iid inc1 }
      if cfg.responseJids.length ≤ inc1.proposals.length then evaluateProposals st1 iid
      else (st1, [])

/-- Completion intake (`CNPInitiatorBehaviour.handle_inform`). -/
def handleInform (st : MonState) (m : Msg) : MonState :=
  match getMeta m "incident_id" with
  | none => st
  | some iid => { st with pendingCfps := removeA st.pendingCfps iid }

/-- Message dispatch of `CNPInitiatorBehaviour.run`; this behaviour is purely
message-driven: no transition fires at the recorded 2-second deadline. -/
def cnpInitiatorRun (cfg : MonConf) (st : MonState) (m : Msg) : MonState × List Msg :=
  let proto := getMeta m "protocol"
  let perf := getMeta m "performative"
  if proto == some "cnp-propose" && perf == some "PROPOSE" then handlePropose cfg st m
  else if proto == some "cnp-inform" && perf == some "INFORM" then (handleInform st m, [])
  else (st, [])

/-! ### Response agent (response.py) -/

/-- Active incident record of the response agent. -/
structure RInc where
  threatType : String
  offenderJid : String
  victimJid : Option String := none
  intensity : Int := 5
  status : String := "mitigating"
  endTime : Option Rat := none
deriving Repr, DecidableEq

/-- Response-agent state. -/
structure RespState where
  cpuUsage : Rat := 10
  refusedCfps : Nat := 0
  activeIncidents : List (String × RInc) := []
deriving Repr, DecidableEq

/-- Number of incidents currently in status `mitigating`. -/
def activeMitigations (st : RespState) : Nat :=
  (st.activeIncidents.filter (fun p => p.2.status == "mitigating")).length

/-- Availability score (`calculate_availability_score`): stored CPU usage
(`or 20.0` on a falsy value) plus ten per active mitigation. -/
def calcScore (st : RespState) : Rat :=
  (if st.cpuUsage == 0 then 20 else st.cpuUsage) + (activeMitigations st : Rat) * 10

/-- Reply produced by `handle_cfp`: either a `cnp-refuse/REFUSE` or a
`cnp-propose/PROPOSE` carrying the availability score. -/
inductive CfpOut
  | refuse (incidentId : Option String)
  | propose (incidentId : Option String) (score : Rat)
deriving Repr, DecidableEq

/-- CFP intake (`CNPParticipantBehaviour.handle_cfp`): refuse and count when
the estimated load `10 + 15 * active` exceeds 85, otherwise bid. -/
def handleCfp (st : RespState) (m : Msg) : RespState × CfpOut :=
  let iid := getMeta m "incident_id"
  let active := activeMitigations st
  let currentCpu : Rat := 10 + (active : Rat) * 15
  if 85 < currentCpu then
    ({ st with refusedCfps := st.refusedCfps + 1 }, .refuse iid)
  else
    (st, .propose iid (calcScore st))

/-- Python `x or d` on an optional integer (0 is falsy). -/
def pyOrI (o : Option Int) (d : Int) : Int :=
  match o with
  | none => d
  | some x => if x == 0 then d else x

/-- Contract intake (`handle_accept_proposal`): record the incident as
mitigating; the mitigation itself runs as a separate task. -/
def handleAccept (st : RespState) (m : Msg) : RespState :=
  let iid := (getMeta m "incident_id").getD "None"
  let inc : RInc :=
    { threatType := (getMeta m "threat_type").getD "None"
      offenderJid := (getMeta m "offender_jid").getD "None"
      victimJid := getMeta m "victim_jid"
      intensity := pyIntOr (getMeta m "intensity") 5
      status := "mitigating" }
  { st with activeIncidents := putA st.activeIncidents iid inc }

/-- Message dispatch of `CNPParticipantBehaviour.run`. -/
def participantStep (st : RespState) (m : Msg) : RespState × Option CfpOut :=
  let proto := getMeta m "protocol"
  let perf := getMeta m "performative"
  if proto == some "cnp-cfp" && perf == some "CFP" then
    let r := handleCfp st m
    (r.1, some r.2)
  else if proto == some "cnp-accept" && perf == some "ACCEPT_PROPOSAL" then
    (handleAccept st m, none)
  else (st, none)

/-- Status update after `_execute_mitigation_async` finishes. -/
def completeMitigation (st : RespState) (iid : String) (success : Bool) (now : Rat) :
    RespState :=
  match lookupA st.activeIncidents iid with
  | none => st
  | some inc =>
    let inc2 := { inc with status := (if success then "resolved" else "failed"),
                           endTime := some now }
    { st with activeIncidents := setA st.activeIncidents iid inc2 }

/-- Periodic cleanup (`CleanupBehaviour.run`): drop resolved and failed
incidents five seconds after their end time. -/
def cleanupStep (st : RespState) (now : Rat) : RespState :=
  { st with activeIncidents := st.activeIncidents.filter (fun p =>
      !((p.2.status == "resolved" || p.2.status == "failed")
        && (match p.2.endTime with
            | some e => decide (5 ≤ now - e)
            | none => false))) }

/-- Periodic resource tracking (`ResourceBehaviour.run`). -/
def respResourceStep (st : RespState) : RespState :=
  { st with cpuUsage := min 100 (10 + (activeMitigations st : Rat) * 15) }

/-- Success-rate formula `max(40, 95 - intensity * 5)` that the source
computes for insider threats; it is only logged, never drawn against. -/
def mitigationSuccessRate (intensity : Int) : Int :=
  max 40 (95 - intensity * 5)

/-- Insider-threat enforcement gate of `execute_mitigation`: login and
unauthorized threats apply exactly when intensity is below 7; otherwise an
exfiltration keyword sets the gate to intensity below 9, and a backdoor or
lateral keyword overrides it with: intensity 9 always applies, anything else
is decided by a uniform coin. -/
def insiderGate (threat : String) (intensity : Int) (coin : Bool) : Bool :=
  if sContains threat "login" || sContains threat "unauthorized" then
    decide (intensity < 7)
  else
    let m1 := if sContains threat "exfiltration" then decide (intensity < 9) else false
    if sContains threat "backdoor" || sContains threat "lateral" then
      if intensity == 9 then true else coin
    else m1

/-- Firewall-control command message. -/
def fwCtrlMsg (dst body : String) : Msg :=
  { toJid := some dst, body := body, meta := [("protocol", "firewall-control")] }

/-- Plain notification message with no metadata. -/
def plainMsg (dst body : String) : Msg :=
  { toJid := some dst, body := body }

/-- Forensic-clean order sent to a node. -/
def forensicCleanMsg (dst : String) : Msg :=
  { toJid := some dst, body := "FORENSIC_CLEAN:insider_threat"
    meta := [("protocol", "incident-response")] }

/-- Rendering of the Python victim argument (`str(victim_jid) if victim_jid
else "unknown"`). -/
def victimStrOf (victim : Option String) : String :=
  match victim with
  | some v => if v == "" then "unknown" else v
  | none => "unknown"

/-- Mitigation executor (`execute_mitigation`) with the phase sleeps elided:
the pair returned is the success flag and the messages sent, in order. The
single random bit drawn for backdoor and lateral insider threats is the
`coin` argument. -/
def executeMitigation (nodesToProtect : List String) (incidentId threat offender : String)
    (victim : Option String) (intensity : Int) (coin : Bool) : Bool × List Msg :=
  let victimStr := victimStrOf victim
  if !sContains offender "attacker" then (false, [])
  else if threat == "malware" || threat == "resource_anomaly" then
    let blocks := nodesToProtect.map (fun n => fwCtrlMsg n ("BLOCK_JID:" ++ offender))
    let cure :=
      if !(victimStr == "unknown") && !sContains victimStr "attacker" then
        [({ toJid := some victimStr, body := "CURE_INFECTION"
            meta := [("protocol", "malware-cure")] } : Msg)]
      else []
    let advisories := nodesToProtect.map (fun n =>
      fwCtrlMsg n ("QUARANTINE_ADVISORY:incident_" ++ incidentId))
    (true, blocks ++ cure ++ advisories)
  else if threat == "ddos" then
    (true, nodesToProtect.map (fun n => fwCtrlMsg n ("RATE_LIMIT:" ++ offender ++ ":10msg/s"))
      ++ nodesToProtect.map (fun n => fwCtrlMsg n ("TEMP_BLOCK:" ++ offender ++ ":15s")))
  else if sContains threat "insider_threat" then
    if victimStr == "unknown" then (false, [])
    else if !insiderGate threat intensity coin then (false, [forensicCleanMsg victimStr])
    else if sContains threat "login" || sContains threat "unauthorized" then
      (true, [fwCtrlMsg victimStr ("SUSPEND_ACCESS:" ++ offender),
              plainMsg offender
                "ACCOUNT_SUSPENDED: Your account has been suspended due to suspicious activity",
              forensicCleanMsg victimStr])
    else
      let n1 :=
        if sContains threat "exfiltration" then
          [plainMsg offender "ACCOUNT_BANNED: Permanent ban due to repeated security violations"]
        else []
      let n2 :=
        if sContains threat "backdoor" || sContains threat "lateral" then
          [plainMsg offender
            "ACCOUNT_BANNED: Permanent ban enforced due to repeated severe violations"]
        else []
      let per := (nodesToProtect.map (fun n =>
        [fwCtrlMsg n ("BLOCK_JID:" ++ offender), forensicCleanMsg n])).flatten
      (true, n1 ++ n2 ++ per)
  else (false, [])

/-! ### Node agent (node.py) -/

/-- Scheduled task entry: `{end, load}`. -/
structure TaskT where
  endT : Rat
  load : Rat
deriving Repr, DecidableEq

/-- Decoded `task` metadata payload `{cpu_load, duration}`; this models the
result of `json.loads` on the metadata string, with the defaults of
`task_info.get`. -/
structure TaskIn where
  cpuLoad : Rat := 0
  duration : Rat := 1
deriving Repr, DecidableEq

/-- Node agent state. -/
structure NState where
  nodeDead : Bool := false
  selfIsolated : Bool := false
  backlogMode : Bool := false
  isInfected : Bool := false
  malwareType : Option String := none
  attackerIntensity : Option Int := none
  infectionSource : Option String := none
  compromised : Bool := false
  backdoorType : Option String := none
  compromisedBy : Option String := none
  compromisedIntensity : Option Int := none
  exfilActive : Bool := false
  exfilBandwidth : Rat := 0
  exfilSource : Option String := none
  lateralActive : Bool := false
  infectedPeers : List String := []
  ddosReceived : Nat := 0
  pingsAnswered : Nat := 0
  activeTasks : List (String × TaskT) := []
  taskCounter : Nat := 0
  isolationStart : Option Rat := none
  backlogStart : Option Rat := none
  pendingInfectionAlert : Bool := false
  lastInfectionAlert : Rat := 0
  lastHealthReport : Rat := 0
  cpuUsage : Rat := 0
  bandwidthUsage : Rat := 0
  cpuPeak : Rat := 0
  overloadTicks : Nat := 0
  baseCpu : Rat := 10
  baseBw : Rat := 5
  sendAdjust : Rat := 0
  fw : FwState := {}
deriving Repr, DecidableEq

/-- Node wiring. -/
structure NConf where
  selfJid : String := "router0_node0@localhost"
  router : Option String := none
  peers : List String := []
  subnetPeers : List String := []
deriving Repr, DecidableEq

/-- Behaviours a message handler can attach. -/
inductive StartB
  | worm (period : Rat)
  | lateral (period : Rat)
deriving Repr, DecidableEq

/-- Random draws consumed by one receive step: `random.randint(1,100)` in the
lateral-spread handler and `random.random() * 100` in the cure and forensic
handlers. -/
structure NDraws where
  lateralInfRoll : Int := 100
  cureRoll : Rat := 100
  forensicRoll : Rat := 100
deriving Repr, DecidableEq

/-- Result of one receive step: new state, messages sent, behaviours started. -/
structure RecvOut where
  st : NState
  outs : List Msg
  started : List StartB
deriving Repr, DecidableEq

/-- Keywords whose mere presence in a message body infects a healthy node. -/
def infectionKeywords : List String := ["trojan", "worm", "exploit", "ransomware"]

/-- Single-quote character, used in the REQUEST reply text. -/
def sq : String := String.singleton (Char.ofNat 39)

/-- Python set `add` on a list used as a set. -/
def setAdd (l : List String) (x : String) : List String :=
  if memB x l then l else l ++ [x]

/-- Python set `discard` on a list used as a set. -/
def setDiscard (l : List String) (x : String) : List String :=
  l.filter (fun y => !(y == x))

/-- Firewall control-command handler (`FirewallBehaviour._handle_control`).
The numeric rendering of remaining temp-block seconds in the LIST dump is
elided; everything else follows the source. -/
def fwHandleControl (fw : FwState) (now : Rat) (senderJ : String) (body0 : String) :
    FwState × Msg :=
  let body := stripStr body0
  let up := upperStr body
  let second := stripStr ((pySplitOnce body ":").getD 1 "")
  let mk (b : String) : Msg :=
    { toJid := some senderJ, body := b, meta := [("protocol", "firewall-control")] }
  if sStarts up "BLOCK_JID:" then
    ({ fw with blockedJids := setAdd fw.blockedJids second }, mk ("OK BLOCKED " ++ second))
  else if sStarts up "UNBLOCK_JID:" then
    ({ fw with blockedJids := setDiscard fw.blockedJids second },
     mk ("OK UNBLOCKED " ++ second))
  else if sStarts up "BLOCK_KEY:" then
    ({ fw with blockedKeywords := setAdd fw.blockedKeywords second },
     mk ("OK BLOCKED_KEY " ++ second))
  else if sStarts up "UNBLOCK_KEY:" then
    ({ fw with blockedKeywords := setDiscard fw.blockedKeywords second },
     mk ("OK UNBLOCKED_KEY " ++ second))
  else if sStarts up "RATE_LIMIT:" then
    let parts := pySplit body ":"
    if 3 ≤ parts.length then
      let jid := stripStr (parts.getD 1 "")
      let rateStr := stripStr (pyReplace (upperStr (stripStr (parts.getD 2 ""))) "MSG/S" "")
      match parseIntS rateStr with
      | some n =>
        ({ fw with rateLimits := putA fw.rateLimits jid ⟨n, 0, now⟩ },
         mk ("OK RATE_LIMITED " ++ jid ++ " to " ++ toString n ++ " msg/s"))
      | none => (fw, mk ("ERROR Invalid rate format: " ++ rateStr))
    else (fw, mk "ERROR Invalid RATE_LIMIT format (use RATE_LIMIT:jid:10msg/s)")
  else if sStarts up "TEMP_BLOCK:" then
    let parts := pySplit body ":"
    if 3 ≤ parts.length then
      let jid := stripStr (parts.getD 1 "")
      let durStr := stripStr (pyReplace (upperStr (stripStr (parts.getD 2 ""))) "S" "")
      match parseIntS durStr with
      | some n =>
        ({ fw with tempBlocks := putA fw.tempBlocks jid (now + (n : Rat)) },
         mk ("OK TEMP_BLOCKED " ++ jid ++ " for " ++ toString n ++ "s"))
      | none => (fw, mk ("ERROR Invalid duration format: " ++ durStr))
    else (fw, mk "ERROR Invalid TEMP_BLOCK format (use TEMP_BLOCK:jid:15s)")
  else if sStarts up "SUSPEND_ACCESS:" then
    ({ fw with suspended := setAdd fw.suspended second }, mk ("OK SUSPENDED " ++ second))
  else if sStarts up "UNSUSPEND_ACCESS:" then
    ({ fw with suspended := setDiscard fw.suspended second }, mk ("OK UNSUSPENDED " ++ second))
  else if sStarts up "QUARANTINE_ADVISORY:" then
    (fw, mk "OK QUARANTINE_ACKNOWLEDGED")
  else if up == "LIST" then
    (fw, mk (String.intercalate "\n"
      (["BLOCKED_JIDS:"] ++ fw.blockedJids ++ ["BLOCKED_KEYWORDS:"] ++ fw.blockedKeywords
       ++ ["SUSPENDED_ACCOUNTS:"] ++ fw.suspended
       ++ ["RATE_LIMITS:"]
       ++ fw.rateLimits.map (fun p => p.1 ++ ": " ++ toString p.2.maxPerSec ++ " msg/s")
       ++ ["TEMP_BLOCKS:"] ++ fw.tempBlocks.map (fun p => p.1 ++ ": expires"))))
  else
    (fw, mk ("ERROR Unknown firewall command: " ++ (pySplit body ":").headD ""))

/-- INFECT: branch of the body dispatch. -/
def handleInfect (cfg : NConf) (st : NState) (m : Msg) (bodyText : String) :
    NState × List Msg × List StartB :=
  let protoI := getMeta m "protocol"
  let mtype := stripStr ⟨bodyText.data.drop 7⟩
  if protoI == some "malware-infection" && !st.isInfected then
    let intensity := pyIntOr (getMeta m "attacker_intensity") 5
    let src := pyOrS (getMeta m "original_sender") (senderRepr m.sender)
    let st1 := { st with isInfected := true, malwareType := some mtype,
                         attackerIntensity := some intensity, infectionSource := some src }
    let outs := match cfg.router with
      | some r => [({ toJid := some r, body := "INFECTED:" ++ mtype,
                      meta := [("protocol", "malware-infection"),
                               ("attacker_intensity", toString intensity)] } : Msg)]
      | none => []
    (st1, outs, [StartB.worm 10])
  else (st, [], [])

/-- DATA_EXFILTRATION: branch of the body dispatch. -/
def handleExfil (st : NState) (m : Msg) : NState × List Msg × List StartB :=
  if !st.exfilActive then
    let intensity := pyIntOr (getMeta m "attacker_intensity") 6
    let src := pyOrS (getMeta m "original_sender") (senderRepr m.sender)
    ({ st with exfilActive := true, exfilBandwidth := (intensity : Rat) * 5,
               exfilSource := some src }, [], [])
  else (st, [], [])

/-- BACKDOOR_INSTALL: branch of the body dispatch. -/
def handleBackdoor (st : NState) (m : Msg) (bodyText : String) :
    NState × List Msg × List StartB :=
  if !st.compromised then
    let btype := stripStr ⟨bodyText.data.drop 17⟩
    let intensity := pyIntOr (getMeta m "attacker_intensity") 6
    let src := pyOrS (getMeta m "original_sender") (senderRepr m.sender)
    let period := max 5 ((30 : Rat) - (intensity : Rat) * (5 / 2))
    ({ st with compromised := true, backdoorType := some btype,
               compromisedBy := some src, compromisedIntensity := some intensity,
               lateralActive := true }, [], [StartB.lateral period])
  else (st, [], [])

/-- LATERAL_SPREAD: branch of the body dispatch. -/
def handleLateralSpread (st : NState) (draws : NDraws) (m : Msg) (bodyText : String) :
    NState × List Msg × List StartB :=
  if !st.compromised then
    let btype := stripStr ⟨bodyText.data.drop 15⟩
    let src := senderRepr m.sender
    let intensity := pyIntOr (getMeta m "spread_intensity") 7
    let rate : Int := min 90 (40 + intensity * 5)
    if rate < draws.lateralInfRoll then (st, [], [])
    else
      let period := max 5 ((30 : Rat) - (intensity : Rat) * (5 / 2))
      ({ st with compromised := true, backdoorType := some btype,
                 compromisedBy := some src, compromisedIntensity := some intensity,
                 exfilActive := true, exfilBandwidth := (intensity : Rat) * 5,
                 lateralActive := true }, [], [StartB.lateral period])
  else (st, [], [])

/-- Firewall-command branch of the body dispatch. -/
def handleFwCmd (st : NState) (now : Rat) (m : Msg) (bodyText : String) :
    NState × List Msg × List StartB :=
  let r := fwHandleControl st.fw now (senderRepr m.sender) bodyText
  ({ st with fw := r.1 }, [r.2], [])

/-- CURE_INFECTION branch of the body dispatch. -/
def handleCure (st : NState) (draws : NDraws) : NState × List Msg × List StartB :=
  if st.isInfected then
    let intensity := pyOrI st.attackerIntensity 5
    let rate : Int := max 30 (min 95 (100 - intensity * 7))
    if draws.cureRoll < (rate : Rat) then
      ({ st with activeTasks := [], isInfected := false, malwareType := none,
                 attackerIntensity := none, infectionSource := none,
                 selfIsolated := false }, [], [])
    else (st, [], [])
  else (st, [], [])

/-- FORENSIC_CLEAN branch of the body dispatch. -/
def handleForensic (st : NState) (draws : NDraws) : NState × List Msg × List StartB :=
  if st.compromised then
    let intensity := pyOrI st.compromisedIntensity 6
    let rate : Int := max 40 (min 95 (100 - intensity * 6))
    if draws.forensicRoll < (rate : Rat) then
      ({ st with compromised := false, backdoorType := none, compromisedBy := none,
                 compromisedIntensity := none, exfilActive := false,
                 exfilBandwidth := 0, exfilSource := none, lateralActive := false,
                 infectedPeers := [] }, [], [])
    else (st, [], [])
  else (st, [], [])

/-- PING branch of the body dispatch. -/
def handlePing (cfg : NConf) (st : NState) (m : Msg) : NState × List Msg × List StartB :=
  let st1 := { st with pingsAnswered := st.pingsAnswered + 1 }
  let orig := pyOrS (getMeta m "original_sender") (senderRepr m.sender)
  match cfg.router with
  | some r =>
    (st1, [({ toJid := some r, body := "PONG", meta := [("dst", orig)] } : Msg)], [])
  | none =>
    (st1, [({ toJid := some (senderRepr m.sender), body := "PONG" } : Msg)], [])

/-- REQUEST: branch of the body dispatch. -/
def handleRequest (cfg : NConf) (st : NState) (m : Msg) (bodyText : String) :
    NState × List Msg × List StartB :=
  let content : String := ⟨bodyText.data.drop 8⟩
  let replyBody := "RESPONSE: processed " ++ sq ++ stripStr content ++ sq
  let orig := pyOrS (getMeta m "original_sender") (senderRepr m.sender)
  match cfg.router with
  | some r =>
    (st, [({ toJid := some r, body := replyBody, meta := [("dst", orig)] } : Msg)], [])
  | none =>
    (st, [({ toJid := some (senderRepr m.sender), body := replyBody } : Msg)], [])

/-- Body dispatch of `RecvBehav.run` (the message-handling chain that follows
the firewall, leakage metric, vulnerability scan and task scheduling). -/
def recvDispatch (cfg : NConf) (st : NState) (now : Rat) (draws : NDraws)
    (m : Msg) (bodyText : String) : NState × List Msg × List StartB :=
  if sStarts bodyText "INFECT:" then handleInfect cfg st m bodyText
  else if sStarts bodyText "DATA_EXFILTRATION:" then handleExfil st m
  else if sStarts bodyText "BACKDOOR_INSTALL:" then handleBackdoor st m bodyText
  else if sStarts bodyText "LATERAL_SPREAD:" then handleLateralSpread st draws m bodyText
  else if sStarts bodyText "BLOCK_JID:" || sStarts bodyText "RATE_LIMIT:"
      || sStarts bodyText "TEMP_BLOCK:" || sStarts bodyText "SUSPEND_ACCESS:" then
    handleFwCmd st now m bodyText
  else if sStarts bodyText "CURE_INFECTION" then handleCure st draws
  else if sStarts bodyText "FORENSIC_CLEAN" then handleForensic st draws
  else if upperStr bodyText == "PING" then handlePing cfg st m
  else if sStarts bodyText "REQUEST:" then handleRequest cfg st m bodyText
  else (st, [], [])

/-- Vulnerability scan of `RecvBehav.run`: an infection keyword in the body
infects a healthy node and starts worm propagation. -/
def vulnScan (st : NState) (m : Msg) (bodyLower : String) : NState × List StartB :=
  if !st.isInfected && infectionKeywords.any (fun kw => sContains bodyLower kw) then
    let intensity := pyIntOr (getMeta m "attacker_intensity") 5
    ({ st with attackerIntensity := some intensity, isInfected := true },
     [StartB.worm 10])
  else (st, [])

/-- Task scheduling of `RecvBehav.run`, with the immediate CPU check that can
self-isolate the node right after the task is added. -/
def taskSchedule (st : NState) (now : Rat) (taskInfo : Option TaskIn) : NState :=
  match taskInfo with
  | none => st
  | some t =>
    let counter := st.taskCounter + 1
    let tid := "t" ++ toString counter ++ "-" ++ toString now.floor
    let active := putA st.activeTasks tid ⟨now + t.duration, t.cpuLoad⟩
    let stT := { st with taskCounter := counter, activeTasks := active }
    let extra := (active.map (fun p => p.2.load)).sum
    let infectionLoad : Rat := if stT.isInfected then 20 else 0
    let currentCpu := min 100 (stT.baseCpu + extra + infectionLoad + stT.sendAdjust)
    if 65 < currentCpu && !stT.selfIsolated then
      let numTasks := active.length
      let avg := if 0 < numTasks then extra / (numTasks : Rat) else currentCpu
      if 15 < avg then
        { stT with selfIsolated := true, isolationStart := some now,
                   pendingInfectionAlert := true }
      else stT
    else stT

/-- Admission pre-checks of `RecvBehav.run`: true when the message is dropped
before the firewall (self-isolation or backlog mode). -/
def recvBlocked (st : NState) (m : Msg) : Bool :=
  let protocol := getMeta m "protocol"
  let bodyLower0 := lowerStr m.body
  let isCure := protocol == some "cure"
    || ["cure_infection", "forensic_clean"].any (fun kw => sContains bodyLower0 kw)
  let isHealth := protocol == some "health-check" || sStarts bodyLower0 "ping"
  let isCritical := protocol == some "firewall-control" || protocol == some "cure"
    || ["cure_infection", "forensic_clean", "block_jid", "rate_limit"].any
        (fun kw => sContains bodyLower0 kw)
  (st.selfIsolated && !isCure && !isHealth) || (st.backlogMode && !isCritical)

/-- Post-firewall processing of `RecvBehav.run`: leakage metric,
vulnerability scan, task scheduling, then the body dispatch. -/
def recvAllowed (cfg : NConf) (st : NState) (now : Rat) (draws : NDraws)
    (taskMeta : Option TaskIn) (m : Msg) : NState × List Msg × List StartB :=
  let protocol := getMeta m "protocol"
  let stB := if protocol == some "attack" then
      { st with ddosReceived := st.ddosReceived + 1 }
    else st
  let bodyText := stripStr m.body
  let bodyLower := lowerStr bodyText
  let v := vulnScan stB m bodyLower
  let stC := v.1
  let isPing := upperStr bodyText == "PING"
  let taskInfo := if stC.selfIsolated && isPing then none else taskMeta
  let stD := taskSchedule stC now taskInfo
  let r := recvDispatch cfg stD now draws m bodyText
  (r.1, r.2.1, v.2 ++ r.2.2)

/-- One receive step of `NodeAgent.RecvBehav.run`: dead-node drop,
self-isolation and backlog admission, inbound firewall, then the allowed-path
processing. `taskMeta` is the decoded `task` metadata of the message. -/
def recvStep (cfg : NConf) (st : NState) (now : Rat) (draws : NDraws)
    (taskMeta : Option TaskIn) (m : Msg) : RecvOut :=
  if st.nodeDead then ⟨st, [], []⟩
  else if recvBlocked st m then ⟨st, [], []⟩
  else
    let fo := nodeAllow st.fw cfg.peers cfg.selfJid now m
    if !fo.allowed then ⟨{ st with fw := fo.st }, fo.alerts, []⟩
    else
      let r := recvAllowed cfg { st with fw := fo.st } now draws taskMeta m
      ⟨r.1, fo.alerts ++ r.2.1, r.2.2⟩

/-- Result of a periodic behaviour run: state, messages, and whether the
behaviour killed itself. -/
structure PerOut where
  st : NState
  outs : List Msg
  killed : Bool
deriving Repr, DecidableEq

/-- Containment logic of `ResourceBehav.run`: over 70% CPU an infection
signature (high average load per task, or load with no tasks) self-isolates
and rate-limits a threat alert to the router, a normal overload enters
backlog mode; under 40% both containment modes end. -/
def resourceContain (cfg : NConf) (st1 : NState) (now cpu extra : Rat)
    (numTasks : Nat) : NState × List Msg :=
  if 70 < cpu then
    let avg := if 0 < numTasks then extra / (numTasks : Rat) else cpu
    if 15 < avg || (numTasks == 0 && 70 < cpu) then
      let stA := if st1.selfIsolated then st1
        else { st1 with selfIsolated := true, isolationStart := some now }
      if 10 < now - stA.lastInfectionAlert then
        match cfg.router with
        | some r =>
          ({ stA with lastInfectionAlert := now },
           [({ toJid := some r, body := "INFECTED:CPU"
               meta := [("protocol", "threat-alert"),
                        ("threat_type", "suspected_malware"),
                        ("dst", cfg.selfJid),
                        ("offender", pyOrS stA.infectionSource "unknown")] } : Msg)])
        | none => (stA, [])
      else (stA, [])
    else
      if st1.backlogMode then (st1, [])
      else ({ st1 with backlogMode := true, backlogStart := some now }, [])
  else if cpu < 40 then
    ({ st1 with selfIsolated := false, backlogMode := false }, [])
  else (st1, [])

/-- Periodic health report of `ResourceBehav.run` (sent at most every five
seconds; the monitor JID is derived from the router JID by string surgery,
and the derivation failure swallowed by the source try/except drops only the
message). -/
def healthTail (cfg : NConf) (st2 : NState) (acc : List Msg) (now : Rat) : PerOut :=
  if 5 < now - st2.lastHealthReport then
    let st3 := { st2 with lastHealthReport := now }
    match cfg.router with
    | some r =>
      if 2 ≤ (pySplit r "router").length && 2 ≤ (pySplit r "@").length then
        let num := (pySplit ((pySplit r "router").getD 1 "") "@").headD ""
        let dom := (pySplit r "@").getD 1 ""
        ⟨st3, acc ++ [({ toJid := some ("monitor" ++ num ++ "@" ++ dom)
                         body := "CPU:" ++ toString st2.cpuUsage
                         meta := [("protocol", "health-report")] } : Msg)], false⟩
      else ⟨st3, acc, false⟩
    | none => ⟨st3, acc, false⟩
  else ⟨st2, acc, false⟩

/-- One live run of `ResourceBehav.run` (the node is not dead): purge expired
tasks, recompute CPU and bandwidth, contain overloads, crash at 100% CPU
announcing node-death to the parent router, else send the health report. -/
def resourceTick (cfg : NConf) (st : NState) (now : Rat) : PerOut :=
  let active := st.activeTasks.filter (fun p => now < p.2.endT)
  let extra := (active.map (fun p => p.2.load)).sum
  let infectionLoad : Rat := if st.isInfected then 20 else 0
  let cpu := min 100 (st.baseCpu + extra + infectionLoad + st.sendAdjust)
  let bw := min 100 (st.baseBw + extra * (1 / 5) + st.exfilBandwidth)
  let st1 := { st with activeTasks := active, cpuUsage := cpu, bandwidthUsage := bw,
                       cpuPeak := max st.cpuPeak cpu,
                       overloadTicks := if 90 < cpu then st.overloadTicks + 1
                                        else st.overloadTicks }
  let contained := resourceContain cfg st1 now cpu extra active.length
  let st2 := contained.1
  if 100 ≤ cpu then
    let deathOuts := match cfg.router with
      | some r => [({ toJid := some r, body := "NODE_DEATH: " ++ cfg.selfJid,
                      meta := [("protocol", "node-death")] } : Msg)]
      | none => []
    ⟨{ st2 with nodeDead := true, activeTasks := [], cpuUsage := 0 },
     contained.2 ++ deathOuts, true⟩
  else healthTail cfg st2 contained.2 now

/-- One run of `NodeAgent.ResourceBehav`: kill when already dead, otherwise a
live tick. The formatted numbers inside log-style bodies are elided. -/
def resourceStep (cfg : NConf) (st : NState) (now : Rat) : PerOut :=
  if st.nodeDead then ⟨st, [], true⟩ else resourceTick cfg st now

/-- Worm task payload `json.dumps({"cpu_load": 20.0, "duration": 10.0})`. -/
def wormTaskJson : String := "\x7b\x22cpu_load\x22: 20.0, \x22duration\x22: 10.0\x7d"

/-- One run of `NodeAgent.WormPropagationBehav`: stops when cured or dead,
otherwise sends the trap PING with a CPU-bomb task to the sibling node. -/
def wormStep (cfg : NConf) (st : NState) : PerOut :=
  if !st.isInfected || st.nodeDead then ⟨st, [], true⟩
  else
    match cfg.router with
    | none => ⟨st, [], false⟩
    | some router =>
      let jparts := pySplit cfg.selfJid "@"
      if jparts.length == 2 then
        let base := jparts.headD ""
        let domain := jparts.getD 1 ""
        let bparts := pySplit base "_node"
        if bparts.length == 2 then
          match parseNatL (bparts.getD 1 "").data with
          | none => ⟨st, [], false⟩
          | some myIdx =>
            let peerIdx : Int := 1 - (myIdx : Int)
            let target := bparts.headD "" ++ "_node" ++ toString peerIdx ++ "@" ++ domain
            ⟨st, [({ toJid := some router, body := "PING",
                     meta := [("dst", target), ("protocol", "worm-payload"),
                              ("task", wormTaskJson)] } : Msg)], false⟩
        else ⟨st, [], false⟩
      else ⟨st, [], false⟩

/-- One run of `NodeAgent.LateralMovementBehaviour`: stops only when the node
is no longer compromised (the dead flag is not consulted), rolls the spread
chance against `min(95, 10 * intensity)`, and sends `LATERAL_SPREAD` payloads
to sampled uncompromised peers; `sample` stands for `random.sample`. -/
def lateralStep (cfg : NConf) (st : NState) (roll : Int)
    (sample : List String → Nat → List String) : PerOut :=
  if !st.compromised then ⟨st, [], true⟩
  else
    match cfg.router with
    | none => ⟨st, [], false⟩
    | some router =>
      if cfg.subnetPeers.isEmpty then ⟨st, [], false⟩
      else
        let intensity := pyOrI st.compromisedIntensity 6
        let rate : Int := min 95 (intensity * 10)
        if rate < roll then ⟨st, [], false⟩
        else
          let mine := st.infectedPeers
          let available := cfg.subnetPeers.filter (fun p => !memB p mine)
          if available.isEmpty then ⟨st, [], false⟩
          else
            let targetsCount : Nat := if intensity < 7 then 1 else min 2 available.length
            let targets := sample available (min targetsCount available.length)
            let btype := pyOrS st.backdoorType "insider_backdoor"
            let outs := targets.map (fun tgt =>
              ({ toJid := some router, body := "LATERAL_SPREAD:" ++ btype,
                 meta := [("dst", tgt), ("protocol", "attack"),
                          ("spread_intensity", toString intensity)] } : Msg))
            ⟨{ st with infectedPeers := mine ++ targets }, outs, false⟩

/-- CPU figure that one resource tick computes: base plus unexpired task
load, plus the flat infection overhead, plus the send adjustment, capped at
100. -/
def nodeCpu (st : NState) (now : Rat) : Rat :=
  min 100 (st.baseCpu
    + ((st.activeTasks.filter (fun p => now < p.2.endT)).map (fun p => p.2.load)).sum
    + (if st.isInfected then 20 else 0) + st.sendAdjust)

/-! ### Concrete instances used by witnesses and counterexamples -/

/-- Firewall whose keyword blocklist holds the empty keyword. -/
def fwC1 : FwState := { blockedKeywords := [""] }

/-- Benign message from an attacker JID. -/
def msgC1 : Msg :=
  { toJid := some "router0_node0@localhost", sender := some "attacker9@localhost"
    body := "hello" }

/-- Attack message whose body trips the advisory threat scan. -/
def msgC1w : Msg :=
  { toJid := some "router0_node0@localhost", sender := some "attacker9@localhost"
    body := "the trojan payload" }

/-- Packet arriving with TTL 1. -/
def msgC2a : Msg :=
  { toJid := some "router0@localhost", sender := some "attacker1@localhost"
    body := "hi", meta := [("dst", "router1_node0@localhost"), ("ttl", "1")] }

/-- The same packet one hop later, carrying TTL 0. -/
def msgC2b : Msg :=
  { toJid := some "router1@localhost", sender := some "router0@localhost"
    body := "hi", meta := [("dst", "router1_node0@localhost"), ("ttl", "0"),
                           ("original_sender", "attacker1@localhost")] }

/-- Monitor configured with a single responder. -/
def monCfgC3 : MonConf := { responseJids := ["response1@localhost"] }

/-- Monitor state holding one pending incident. -/
def monStC3 : MonState :=
  { pendingCfps := [("incident_0",
      { threatType := "ddos", offenderJid := "attacker1@localhost", deadline := 2 })] }

/-- Proposal for the pending incident. -/
def proposeC3 : Msg :=
  { toJid := some "monitor0@localhost", sender := some "response1@localhost"
    body := "Proposal for incident incident_0"
    meta := [("protocol", "cnp-propose"), ("performative", "PROPOSE"),
             ("incident_id", "incident_0"), ("availability_score", "10.0")] }

/-- Mirrored attack traffic that makes the monitor raise an alert. -/
def msgC4 : Msg :=
  { toJid := some "monitor0@localhost", sender := some "router0@localhost"
    body := "the trojan payload"
    meta := [("protocol", "network-copy"), ("original_sender", "attacker1@localhost")] }

/-- Monitor state with a sender silenced until time 115. -/
def monStC8 : MonState := { alertedSenders := [("attacker1@localhost", 115)] }

/-- Router-forwarded threat alert naming the silenced sender. -/
def msgC8 : Msg :=
  { toJid := some "monitor0@localhost", sender := some "router0@localhost"
    body := "THREAT from attacker1@localhost to router0_node0@localhost: trojan - x"
    meta := [("protocol", "threat-alert")] }

/-- Mirrored traffic from the silenced sender. -/
def msgC8b : Msg :=
  { toJid := some "monitor0@localhost", sender := some "router0@localhost"
    body := "the trojan payload"
    meta := [("protocol", "network-copy"), ("original_sender", "attacker1@localhost")] }

/-- Node wiring with a parent router and one sibling. -/
def nConfC7 : NConf :=
  { selfJid := "router0_node0@localhost", router := some "router0@localhost"
    peers := ["router0@localhost"], subnetPeers := ["router0_node1@localhost"] }

/-- Dead but compromised node state. -/
def nStC7 : NState :=
  { nodeDead := true, compromised := true, compromisedIntensity := some 8 }

/-- Cure order as the response agent sends it. -/
def cureMsg : Msg :=
  { toJid := some "router0_node0@localhost", sender := some "response1@localhost"
    body := "CURE_INFECTION", meta := [("protocol", "malware-cure")] }

/-- Cure success-rate formula of the node (`max(30, min(95, 100 - 7 i))`). -/
def cureRate (i : Int) : Int := max 30 (min 95 (100 - i * 7))

/-- Infected node state used by the cure witness. -/
def nStC9 : NState := { isInfected := true, attackerIntensity := some 4,
                        malwareType := some "trojan" }

/-- Worm-payload message whose body carries an infection keyword without the
INFECT: prefix and under an unrelated protocol. -/
def msgC10 : Msg :=
  { toJid := some "router0_node0@localhost", sender := some "attacker1@localhost"
    body := "this worm spreads", meta := [("protocol", "attack"),
                                          ("attacker_intensity", "7")] }

/-- Message mentioning only the non-triggering keywords. -/
def msgC10b : Msg :=
  { toJid := some "router0_node0@localhost", sender := some "attacker1@localhost"
    body := "virus malware", meta := [("protocol", "attack")] }

/-- Mitigating incident record used by the saturation witness. -/
def rincM : RInc := { threatType := "ddos", offenderJid := "attacker1@localhost" }

/-- Responder state saturated with six active mitigations. -/
def respStC6 : RespState :=
  { cpuUsage := 100
    activeIncidents := [("i1", rincM), ("i2", rincM), ("i3", rincM),
                        ("i4", rincM), ("i5", rincM), ("i6", rincM)] }

/-- ACCEPT_PROPOSAL as `evaluate_proposals` builds it (echoing the incident
threat type and offender, with no intensity key). -/
def acceptMsgOf (iid : String) (inc : Incident) (winner : String) : Msg :=
  { toJid := some winner
    body := "Contract awarded for incident " ++ iid
    meta := [("protocol", "cnp-accept"), ("performative", "ACCEPT_PROPOSAL"),
             ("incident_id", iid), ("threat_type", inc.threatType),
             ("offender_jid", inc.offenderJid)] }

/-- REJECT_PROPOSAL as `evaluate_proposals` builds it. -/
def rejectMsgOf (iid : String) (bidder : String) : Msg :=
  { toJid := some bidder
    body := "Proposal rejected for incident " ++ iid
    meta := [("protocol", "cnp-reject"), ("performative", "REJECT_PROPOSAL"),
             ("incident_id", iid)] }

/-! ## Theorems -/

/-! ### Firewall decision order (C1) -/

theorem allowTail_eq (fw : FwState) (body : String) :
    allowTail fw body = ((if fwKwHitNE fw body then false else true), fw) := by
  unfold allowTail fwKwHitNE
  split <;> simp_all

theorem allowBlocked_eq (fw : FwState) (s body : String) :
    allowBlocked fw s body
      = ((if memB s fw.blockedJids then false
          else if fwKwHitNE fw body then false else true), fw) := by
  unfold allowBlocked
  split <;> simp_all [allowTail_eq]

theorem allowRate_eq (fw : FwState) (s body : String) (now : Rat) :
    allowRate fw s body now
      = ((if (match lookupA fw.rateLimits s with
              | some rl => decide (rl.maxPerSec < (rateAfter now rl).count)
              | none => false) then false
          else if memB s fw.blockedJids then false
          else if fwKwHitNE fw body then false else true),
         rateUpd fw s now) := by
  unfold allowRate rateUpd
  cases h : lookupA fw.rateLimits s with
  | none => simp [h, allowBlocked_eq]
  | some rl =>
    simp only [h]
    by_cases hlt : rl.maxPerSec < (rateAfter now rl).count
    · simp [hlt]
    · simp [hlt, allowBlocked_eq, fwKwHitNE]

theorem allowCore_eq (fw : FwState) (eff : Option String) (body : String) (now : Rat) :
    allowCore fw eff body now
      = (coreDecisionWith fwKwHitNE fw eff body now, coreNext fw eff now) := by
  cases eff with
  | none =>
    simp [allowCore, coreDecisionWith, coreNext, fwSusp, fwTempActive, fwRateExceeded,
          fwBlockedHit, allowTail_eq]
  | some s =>
    by_cases hs : s = ""
    · subst hs
      simp [allowCore, coreDecisionWith, coreNext, fwSusp, fwTempActive, fwRateExceeded,
            fwBlockedHit, allowTail_eq]
    · have hs' : (s == "") = false := by simpa using hs
      by_cases hsusp : memB s fw.suspended
      · simp [allowCore, coreDecisionWith, coreNext, fwSusp, fwTempActive,
              fwRateExceeded, fwBlockedHit, hs', hsusp]
      · cases ht : lookupA fw.tempBlocks s with
        | none =>
          simp [allowCore, coreDecisionWith, coreNext, fwSusp, fwTempActive,
                fwRateExceeded, fwBlockedHit, hs', hsusp, ht, allowRate_eq, rateUpd]
        | some expiry =>
          by_cases hexp : now < expiry
          · simp [allowCore, coreDecisionWith, coreNext, fwSusp, fwTempActive,
                  fwRateExceeded, fwBlockedHit, hs', hsusp, ht, hexp]
          · simp [allowCore, coreDecisionWith, coreNext, fwSusp, fwTempActive,
                  fwRateExceeded, fwBlockedHit, hs', hsusp, ht, hexp, allowRate_eq,
                  rateUpd, fwKwHitNE]

theorem threatScan_allowed (fw : FwState) (peers : List String) (selfJid : String)
    (r : Option String) (body : String) :
    (threatScan fw peers selfJid r body).allowed = true := by
  unfold threatScan
  dsimp only
  split <;> rfl

theorem threatScan_st (fw : FwState) (peers : List String) (selfJid : String)
    (r : Option String) (body : String) :
    (threatScan fw peers selfJid r body).st = fw := by
  unfold threatScan
  dsimp only
  split <;> rfl

theorem nodeAllow_allowed (fw : FwState) (peers : List String) (selfJid : String)
    (now : Rat) (m : Msg) :
    (nodeAllow fw peers selfJid now m).allowed
      = allowDecisionSpec fw m.sender m.sender (getMeta m "protocol") m.body now := by
  unfold nodeAllow allowDecisionSpec allowDecisionWith
  split
  · rfl
  · split
    · rfl
    · rw [allowCore_eq]
      cases hd : coreDecisionWith fwKwHitNE fw m.sender m.body now
      · simp
      · simp [threatScan_allowed]

theorem nodeAllow_st (fw : FwState) (peers : List String) (selfJid : String)
    (now : Rat) (m : Msg) :
    (nodeAllow fw peers selfJid now m).st
      = allowNextState fw m.sender m.sender (getMeta m "protocol") now := by
  unfold nodeAllow allowNextState
  split
  · rfl
  · split
    · rfl
    · rw [allowCore_eq]
      cases hd : coreDecisionWith fwKwHitNE fw m.sender m.body now
      · simp
      · simp [threatScan_st]

theorem routerAllow_allowed (fw : FwState) (peers : List String) (selfJid : String)
    (now : Rat) (m : Msg) :
    (routerAllow fw peers selfJid now m).allowed
      = allowDecisionSpec fw m.sender (routerEff m) (getMeta m "protocol") m.body now := by
  unfold routerAllow allowDecisionSpec allowDecisionWith
  split
  · rfl
  · split
    · rfl
    · rw [allowCore_eq]
      cases hd : coreDecisionWith fwKwHitNE fw (routerEff m) m.body now
      · simp
      · simp [threatScan_allowed]

theorem routerAllow_st (fw : FwState) (peers : List String) (selfJid : String)
    (now : Rat) (m : Msg) :
    (routerAllow fw peers selfJid now m).st
      = allowNextState fw m.sender (routerEff m) (getMeta m "protocol") now := by
  unfold routerAllow allowNextState
  split
  · rfl
  · split
    · rfl
    · rw [allowCore_eq]
      cases hd : coreDecisionWith fwKwHitNE fw (routerEff m) m.body now
      · simp
      · simp [threatScan_st]

theorem nodeAllow_alerts_imp (fw : FwState) (peers : List String) (selfJid : String)
    (now : Rat) (m : Msg) :
    (nodeAllow fw peers selfJid now m).alerts ≠ [] →
    (nodeAllow fw peers selfJid now m).allowed = true := by
  unfold nodeAllow
  split
  · intro _; rfl
  · split
    · intro _; rfl
    · rw [allowCore_eq]
      cases hd : coreDecisionWith fwKwHitNE fw m.sender m.body now
      · intro h; simp at h
      · intro _; simp [threatScan_allowed]

theorem routerAllow_alerts_imp (fw : FwState) (peers : List String) (selfJid : String)
    (now : Rat) (m : Msg) :
    (routerAllow fw peers selfJid now m).alerts ≠ [] →
    (routerAllow fw peers selfJid now m).allowed = true := by
  unfold routerAllow
  split
  · intro _; rfl
  · split
    · intro _; rfl
    · rw [allowCore_eq]
      cases hd : coreDecisionWith fwKwHitNE fw (routerEff m) m.body now
      · intro h; simp at h
      · intro _; simp [threatScan_allowed]

/-- C1 (as amended): for both firewall variants, every inbound decision is the
earliest-matching rule of the section 4.2 order, evaluated over the incoming
rule state with the effective sender of the variant (plain sender for nodes,
metadata original_sender falling back to the sender for routers); the only
state effects are the deletion of an expired temporary block once checking
reaches rule 4 and the rate-window reset and increment once checking reaches
rule 5; a threat-keyword hit only emits an advisory alert and still allows. -/
theorem claim_C1_firewall_first_match (fw : FwState) (peers : List String)
    (selfJid : String) (now : Rat) (m : Msg) :
    ((nodeAllow fw peers selfJid now m).allowed
        = allowDecisionSpec fw m.sender m.sender (getMeta m "protocol") m.body now)
    ∧ ((nodeAllow fw peers selfJid now m).st
        = allowNextState fw m.sender m.sender (getMeta m "protocol") now)
    ∧ ((routerAllow fw peers selfJid now m).allowed
        = allowDecisionSpec fw m.sender (routerEff m) (getMeta m "protocol") m.body now)
    ∧ ((routerAllow fw peers selfJid now m).st
        = allowNextState fw m.sender (routerEff m) (getMeta m "protocol") now)
    ∧ ((nodeAllow fw peers selfJid now m).alerts ≠ [] →
        (nodeAllow fw peers selfJid now m).allowed = true)
    ∧ ((routerAllow fw peers selfJid now m).alerts ≠ [] →
        (routerAllow fw peers selfJid now m).allowed = true) :=
  ⟨nodeAllow_allowed fw peers selfJid now m,
   nodeAllow_st fw peers selfJid now m,
   routerAllow_allowed fw peers selfJid now m,
   routerAllow_st fw peers selfJid now m,
   nodeAllow_alerts_imp fw peers selfJid now m,
   routerAllow_alerts_imp fw peers selfJid now m⟩

/-- C1 counterexample: with the empty string in `blocked_keywords`, the claim
as stated (any blocked keyword that is a substring of the body denies) says
deny, but `allow_message` skips falsy keywords and allows. -/
theorem claim_C1_counterexample :
    (nodeAllow fwC1 [] "router0_node0@localhost" 0 msgC1).allowed = true
    ∧ allowDecisionClaimed fwC1 msgC1.sender msgC1.sender (getMeta msgC1 "protocol")
        msgC1.body 0 = false := by
  decide

/-- C1 witness: a threat-keyword body is reported and still allowed. -/
theorem claim_C1_witness :
    (nodeAllow {} ["router0@localhost"] "router0_node0@localhost" 0 msgC1w).allowed
      = true :=
  (claim_C1_firewall_first_match {} ["router0@localhost"] "router0_node0@localhost"
      0 msgC1w).2.2.2.2.1 (by decide)

/-! ### Router TTL (C2) -/

/-- C2: on the forwarding plane (protocol neither node-death nor
threat-alert), a packet whose incoming TTL is at most 0 is dropped with no
monitor copy and no forward, and every forwarded packet carries exactly the
incoming TTL minus one (so TTL 1 leaves once carrying TTL 0 and dies at the
next hop). -/
theorem claim_C2_router_ttl (cfg : RConf) (fw : FwState) (localNodes : List String)
    (now : Rat) (m : Msg)
    (h1 : getMeta m "protocol" ≠ some "node-death")
    (h2 : getMeta m "protocol" ≠ some "threat-alert") :
    (∀ t : Int, routerTtlIn m = some t → t ≤ 0 →
        (routerStep cfg fw localNodes now m).copies = []
        ∧ (routerStep cfg fw localNodes now m).fwdTtl = none)
    ∧ (∀ u : Int, (routerStep cfg fw localNodes now m).fwdTtl = some u →
        routerTtlIn m = some (u + 1) ∧ 0 < u + 1) := by
  have hb1 : (getMeta m "protocol" == some "node-death") = false := by
    simpa using h1
  have hb2 : (getMeta m "protocol" == some "threat-alert") = false := by
    simpa using h2
  constructor
  · intro t ht hle
    by_cases hall : (routerAllow fw cfg.peers cfg.selfJid now m).allowed = true
    · rcases hdst : routerDst m with _ | dst
      · refine ⟨?_, ?_⟩ <;> simp [routerStep, hb1, hb2, hall, hdst]
      · refine ⟨?_, ?_⟩ <;> simp [routerStep, hb1, hb2, hall, hdst, ht, hle]
    · have hall2 : (routerAllow fw cfg.peers cfg.selfJid now m).allowed = false := by
        simpa using hall
      refine ⟨?_, ?_⟩ <;> simp [routerStep, hb1, hb2, hall2]
  · intro u hu
    by_cases hall : (routerAllow fw cfg.peers cfg.selfJid now m).allowed = true
    · rcases hdst : routerDst m with _ | dst
      · simp [routerStep, hb1, hb2, hall, hdst] at hu
      · rcases httl : routerTtlIn m with _ | t0
        · simp [routerStep, hb1, hb2, hall, hdst, httl] at hu
        · by_cases hle : t0 ≤ 0
          · simp [routerStep, hb1, hb2, hall, hdst, httl, hle] at hu
          · simp [routerStep, hb1, hb2, hall, hdst, httl, hle] at hu
            constructor
            · congr 1
              omega
            · omega
    · have hall2 : (routerAllow fw cfg.peers cfg.selfJid now m).allowed = false := by
        simpa using hall
      simp [routerStep, hb1, hb2, hall2] at hu

/-- C2 witness: a packet arriving with TTL 1 is forwarded carrying TTL 0, and
the same packet at the next hop (TTL 0) is dropped with no monitor copy. -/
theorem claim_C2_witness :
    routerTtlIn msgC2a = some 1
    ∧ (routerStep { monitors := ["monitor0@localhost"] } {} [] 0 msgC2a).fwdTtl = some 0
    ∧ (routerStep { monitors := ["monitor1@localhost"] } {} [] 0 msgC2b).copies = []
    ∧ (routerStep { monitors := ["monitor1@localhost"] } {} [] 0 msgC2b).fwdTtl = none := by
  refine ⟨?_, ?_, ?_, ?_⟩
  · decide
  · have h := (claim_C2_router_ttl { monitors := ["monitor0@localhost"] } {} [] 0 msgC2a
      (by decide) (by decide)).2
    decide
  · exact ((claim_C2_router_ttl { monitors := ["monitor1@localhost"] } {} [] 0 msgC2b
      (by decide) (by decide)).1 0 (by decide) (by decide)).1
  · exact ((claim_C2_router_ttl { monitors := ["monitor1@localhost"] } {} [] 0 msgC2b
      (by decide) (by decide)).1 0 (by decide) (by decide)).2

/-! ### Monitor CNP award (C3) -/

theorem lookupA_cons {α : Type} (a : String × α) (tl : List (String × α)) (k : String) :
    lookupA (a :: tl) k = if a.1 == k then some a.2 else lookupA tl k := by
  by_cases h : (a.1 == k) = true <;> simp [lookupA, List.find?, h]

theorem lookupA_setA_self {α : Type} (l : List (String × α)) (k : String) (v : α)
    (x : α) (h : lookupA l k = some x) : lookupA (setA l k v) k = some v := by
  induction l with
  | nil => simp [lookupA] at h
  | cons hd tl ih =>
    by_cases hk : (hd.1 == k) = true
    · obtain ⟨a, b⟩ := hd
      have hkk : a = k := by simpa using hk
      subst hkk
      have h3 : setA ((a, b) :: tl) a v = (a, v) :: setA tl a v := by
        simp [setA]
      rw [h3, lookupA_cons]
      simp
    · have h2 : lookupA tl k = some x := by
        rw [lookupA_cons] at h
        simpa [hk] using h
      have h4 := ih h2
      have h3 : setA (hd :: tl) k v = hd :: setA tl k v := by
        simp only [setA, List.map_cons]
        have hhd : (if (hd.1 == k) = true then (k, v) else hd) = hd := by
          simp [hk]
        rw [hhd]
      rw [h3, lookupA_cons]
      simpa [hk] using h4

theorem pyMinScore_cons (p r : String × Rat) (rs : List (String × Rat)) :
    pyMinScore p (r :: rs) = pyMinScore (if r.2 < p.2 then r else p) rs := rfl

theorem pyMinScore_mem : ∀ (ps : List (String × Rat)) (p : String × Rat),
    pyMinScore p ps ∈ p :: ps := by
  intro ps
  induction ps with
  | nil => intro p; simp [pyMinScore]
  | cons q qs ih =>
    intro p
    have h := ih (if q.2 < p.2 then q else p)
    rw [pyMinScore_cons]
    rcases List.mem_cons.mp h with h1 | h1
    · rw [h1]
      by_cases hlt : q.2 < p.2 <;> simp [hlt]
    · simp [h1]

theorem pyMinScore_le : ∀ (ps : List (String × Rat)) (p q : String × Rat),
    q ∈ p :: ps → (pyMinScore p ps).2 ≤ q.2 := by
  intro ps
  induction ps with
  | nil =>
    intro p q hq
    simp at hq
    subst hq
    simp [pyMinScore]
  | cons r rs ih =>
    intro p q hq
    rw [pyMinScore_cons]
    have hbase := ih (if r.2 < p.2 then r else p) (if r.2 < p.2 then r else p)
      (List.mem_cons_self _ _)
    rcases List.mem_cons.mp hq with h1 | h1
    · have h3 : (if r.2 < p.2 then r else p).2 ≤ p.2 := by
        by_cases hlt : r.2 < p.2
        · rw [if_pos hlt]
          exact le_of_lt hlt
        · rw [if_neg hlt]
      rw [h1]
      exact le_trans hbase h3
    · rcases List.mem_cons.mp h1 with h2 | h2
      · have h3 : (if r.2 < p.2 then r else p).2 ≤ r.2 := by
          by_cases hlt : r.2 < p.2
          · rw [if_pos hlt]
          · rw [if_neg hlt]
            exact le_of_not_lt hlt
        rw [h2]
        exact le_trans hbase h3
      · exact ih (if r.2 < p.2 then r else p) q (List.mem_cons_of_mem _ h2)

theorem evaluateProposals_spec (st2 : MonState) (iid : String) (inc : Incident)
    (p : String × Rat) (ps : List (String × Rat))
    (hl : lookupA st2.pendingCfps iid = some inc)
    (hp : inc.proposals = p :: ps) :
    (evaluateProposals st2 iid).2
        = acceptMsgOf iid inc (pyMinScore p ps).1
          :: (inc.proposals.filter (fun q => !(q.1 == (pyMinScore p ps).1))).map
               (fun q => rejectMsgOf iid q.1)
    ∧ lookupA (evaluateProposals st2 iid).1.pendingCfps iid
        = some { inc with status := "awarded", winner := some (pyMinScore p ps).1 } := by
  unfold evaluateProposals
  rw [hl]
  dsimp only
  rw [hp]
  dsimp only
  constructor
  · simp [acceptMsgOf, rejectMsgOf, hp]
  · exact lookupA_setA_self _ _ _ _ hl

/-- C3 (as amended): a PROPOSE for an unknown or missing incident id is
discarded; a matching PROPOSE appends `(bidder, availability_score)`; once
the collected proposals reach the number of configured responders, evaluation
runs immediately (the recorded 2-second deadline is never acted on: the CNP
behaviour is purely message-driven); evaluation sends ACCEPT_PROPOSAL to the
first bidder attaining the minimum availability score, echoing incident_id,
threat_type and offender_jid but no intensity, sends REJECT_PROPOSAL to every
other bidder, and marks the incident awarded. -/
theorem claim_C3_cnp_award (cfg : MonConf) (st : MonState) (m : Msg) :
    ((getMeta m "incident_id" = none → handlePropose cfg st m = (st, []))
    ∧ (∀ iid, getMeta m "incident_id" = some iid →
        lookupA st.pendingCfps iid = none → handlePropose cfg st m = (st, [])))
    ∧ (∀ iid inc, getMeta m "incident_id" = some iid →
        lookupA st.pendingCfps iid = some inc →
        (handlePropose cfg st m
          = (let inc1 := { inc with proposals := inc.proposals
                ++ [(senderRepr m.sender, pyRatOr (getMeta m "availability_score") 999)] }
             let st1 := { st with pendingCfps := setA st.pendingCfps iid inc1 }
             if cfg.responseJids.length ≤ inc1.proposals.length then
               evaluateProposals st1 iid
             else (st1, []))))
    ∧ (∀ (st2 : MonState) (iid : String) (inc : Incident) (p : String × Rat)
         (ps : List (String × Rat)),
        lookupA st2.pendingCfps iid = some inc →
        inc.proposals = p :: ps →
        (evaluateProposals st2 iid).2
            = acceptMsgOf iid inc (pyMinScore p ps).1
              :: (inc.proposals.filter (fun q => !(q.1 == (pyMinScore p ps).1))).map
                   (fun q => rejectMsgOf iid q.1)
        ∧ pyMinScore p ps ∈ inc.proposals
        ∧ (∀ q ∈ inc.proposals, (pyMinScore p ps).2 ≤ q.2)
        ∧ lookupA (evaluateProposals st2 iid).1.pendingCfps iid
            = some { inc with status := "awarded", winner := some (pyMinScore p ps).1 }
        ∧ getMeta (acceptMsgOf iid inc (pyMinScore p ps).1) "intensity" = none) := by
  refine ⟨⟨?_, ?_⟩, ?_, ?_⟩
  · intro h
    unfold handlePropose
    rw [h]
  · intro iid h hl
    unfold handlePropose
    rw [h]
    dsimp only
    rw [hl]
  · intro iid inc h hl
    unfold handlePropose
    rw [h]
    dsimp only
    rw [hl]
  · intro st2 iid inc p ps hl hp
    obtain ⟨h1, h2⟩ := evaluateProposals_spec st2 iid inc p ps hl hp
    refine ⟨h1, ?_, ?_, h2, ?_⟩
    · rw [hp]; exact pyMinScore_mem ps p
    · intro q hq
      rw [hp] at hq
      exact pyMinScore_le ps p q hq
    · simp [acceptMsgOf, getMeta]

/-- C3 counterexample: at a concrete awarding step, the ACCEPT_PROPOSAL that
`evaluate_proposals` sends carries no `intensity` metadata (and no
victim_jid), refuting the stated claim that evaluation adds intensity. -/
theorem claim_C3_counterexample :
    (handlePropose monCfgC3 monStC3 proposeC3).2.length = 1
    ∧ getMeta ((handlePropose monCfgC3 monStC3 proposeC3).2.headD {}) "performative"
        = some "ACCEPT_PROPOSAL"
    ∧ ((handlePropose monCfgC3 monStC3 proposeC3).2.headD {}).toJid
        = some "response1@localhost"
    ∧ getMeta ((handlePropose monCfgC3 monStC3 proposeC3).2.headD {}) "intensity" = none
    ∧ getMeta ((handlePropose monCfgC3 monStC3 proposeC3).2.headD {}) "victim_jid"
        = none := by
  decide

/-- C3 witness: the award characterization applied to a two-bidder auction. -/
theorem claim_C3_witness :
    (evaluateProposals
        { pendingCfps := [("incident_0",
            { threatType := "ddos", offenderJid := "attacker1@localhost",
              proposals := [("response1@localhost", 30), ("response2@localhost", 20)],
              deadline := 2 })] } "incident_0").2
      = [acceptMsgOf "incident_0"
          { threatType := "ddos", offenderJid := "attacker1@localhost",
            proposals := [("response1@localhost", 30), ("response2@localhost", 20)],
            deadline := 2 } "response2@localhost",
         rejectMsgOf "incident_0" "response1@localhost"] := by
  have h := ((claim_C3_cnp_award {} {} {}).2.2
      { pendingCfps := [("incident_0",
          { threatType := "ddos", offenderJid := "attacker1@localhost",
            proposals := [("response1@localhost", 30), ("response2@localhost", 20)],
            deadline := 2 })] } "incident_0"
      { threatType := "ddos", offenderJid := "attacker1@localhost",
        proposals := [("response1@localhost", 30), ("response2@localhost", 20)],
        deadline := 2 }
      ("response1@localhost", 30) [("response2@localhost", 20)]
      (by decide) (by decide)).1
  rw [h]
  decide

/-! ### Monitor threat classification (C4) -/

/-- C4: the claim describes the intended classification
(protocol malware-infection to malware, rate reasons to ddos, keyword_rate
reasons to insider_threat, high-priority keywords to malware, then a CNP
auction), but the classification line reads the undefined name
`copy_metadata`, so on a concrete suspicious mirrored packet the traffic path
raises a NameError right after muting the sender: no threat type is computed
and no CFP is emitted (the exception is caught and logged in `run`). -/
theorem claim_C4_classification_dead :
    (processMessage {} {} 100 msgC4).2
        = Except.error "NameError: name copy_metadata is not defined"
    ∧ lookupA (processMessage {} {} 100 msgC4).1.alertedSenders
        "attacker1@localhost" = some 115
    ∧ (monitorRun {} {} 100 msgC4).2 = []
    ∧ (monitorRun {} {} 100 msgC4).1.incidentCounter = 0 := by
  with_unfolding_all decide

/-! ### Insider-threat mitigation gate (C5) -/

theorem beq_false_of_contains {threat probe : String}
    (hins : sContains threat "insider_threat" = true)
    (hprobe : sContains probe "insider_threat" = false) :
    (threat == probe) = false := by
  cases h : threat == probe with
  | false => rfl
  | true =>
    have he : threat = probe := by simpa using h
    rw [he] at hins
    rw [hins] at hprobe
    cases hprobe

/-- C5 (as amended): the rate `max(40, 95 - 5 intensity)` is computed but
never drawn against; the gate is deterministic except for backdoor and
lateral threats: login and unauthorized threats apply enforcement exactly
when intensity is below 7; otherwise backdoor or lateral keywords decide by
(intensity 9 always applies, anything else a uniform coin), an exfiltration
keyword alone decides by intensity below 9, and a threat with none of the
keywords never applies; on a failed gate the responder sends
FORENSIC_CLEAN:insider_threat to the victim and returns failure. -/
theorem claim_C5_insider_gate (nodes : List String) (iid threat offender victim : String)
    (intensity : Int) (coin : Bool)
    (hoff : sContains offender "attacker" = true)
    (hins : sContains threat "insider_threat" = true)
    (hv1 : (victim == "") = false)
    (hv2 : (victim == "unknown") = false) :
    (insiderGate threat intensity coin = false →
        executeMitigation nodes iid threat offender (some victim) intensity coin
          = (false, [forensicCleanMsg victim]))
    ∧ ((sContains threat "login" || sContains threat "unauthorized") = true →
        insiderGate threat intensity coin = decide (intensity < 7))
    ∧ ((sContains threat "login" || sContains threat "unauthorized") = false →
        (sContains threat "backdoor" || sContains threat "lateral") = true →
        insiderGate threat intensity coin = ((intensity == 9) || coin))
    ∧ ((sContains threat "login" || sContains threat "unauthorized") = false →
        (sContains threat "backdoor" || sContains threat "lateral") = false →
        sContains threat "exfiltration" = true →
        insiderGate threat intensity coin = decide (intensity < 9))
    ∧ ((sContains threat "login" || sContains threat "unauthorized") = false →
        (sContains threat "backdoor" || sContains threat "lateral") = false →
        sContains threat "exfiltration" = false →
        insiderGate threat intensity coin = false) := by
  have hm : (threat == "malware") = false :=
    beq_false_of_contains hins (by decide)
  have hra : (threat == "resource_anomaly") = false :=
    beq_false_of_contains hins (by decide)
  have hdd : (threat == "ddos") = false :=
    beq_false_of_contains hins (by decide)
  refine ⟨?_, ?_, ?_, ?_, ?_⟩
  · intro hgate
    unfold executeMitigation victimStrOf
    simp [hoff, hm, hra, hdd, hins, hgate, hv1, hv2]
  · intro hl
    unfold insiderGate
    rw [if_pos (by simpa using hl)]
  · intro hl hb
    unfold insiderGate
    rw [if_neg (by simpa using hl)]
    dsimp only
    rw [if_pos (by simpa using hb)]
    cases h9 : intensity == 9 with
    | true => simp [h9]
    | false => simp [h9]
  · intro hl hb he
    unfold insiderGate
    rw [if_neg (by simpa using hl)]
    dsimp only
    rw [if_neg (by simpa using hb), if_pos (by simpa using he)]
  · intro hl hb he
    unfold insiderGate
    rw [if_neg (by simpa using hl)]
    dsimp only
    rw [if_neg (by simpa using hb), if_neg (by simpa using he)]

/-- C5 counterexample: at threat type insider_threat with intensity 1 and an
identified victim, the claimed gate rate is 90 percent, yet the code denies
enforcement for both values of the random bit: the decision never draws
against the computed rate. -/
theorem claim_C5_counterexample :
    executeMitigation ["router0_node0@localhost"] "0" "insider_threat"
        "attacker1@localhost" (some "router0_node0@localhost") 1 true
      = (false, [forensicCleanMsg "router0_node0@localhost"])
    ∧ executeMitigation ["router0_node0@localhost"] "0" "insider_threat"
        "attacker1@localhost" (some "router0_node0@localhost") 1 false
      = (false, [forensicCleanMsg "router0_node0@localhost"])
    ∧ mitigationSuccessRate 1 = 90 := by
  with_unfolding_all decide

/-- C5 witness: the failed-gate branch at a concrete insider incident. -/
theorem claim_C5_witness :
    executeMitigation [] "0" "insider_threat" "attacker1@localhost"
        (some "router0_node0@localhost") 3 true
      = (false, [forensicCleanMsg "router0_node0@localhost"]) :=
  (claim_C5_insider_gate [] "0" "insider_threat" "attacker1@localhost"
      "router0_node0@localhost" 3 true (by decide) (by decide) (by decide)
      (by decide)).1 (by decide)

/-! ### Responder CFP refusal (C6) -/

/-- C6: on a CFP, with estimated load `10 + 15 * active`, a responder over 85
refuses and increments `refused_cfps` by exactly one, and otherwise proposes
with `availability_score = cpu_usage + 10 * active`; `refused_cfps` never
decreases and no other participant transition (accept, completion, cleanup,
resource tracking) changes it. -/
theorem claim_C6_cfp_refusal (st : RespState) (m : Msg) (iid : String)
    (success : Bool) (now : Rat) (h0 : (st.cpuUsage == 0) = false) :
    ((85 : Rat) < 10 + (activeMitigations st : Rat) * 15 →
        (handleCfp st m).1 = { st with refusedCfps := st.refusedCfps + 1 }
        ∧ (handleCfp st m).2 = CfpOut.refuse (getMeta m "incident_id"))
    ∧ (¬ (85 : Rat) < 10 + (activeMitigations st : Rat) * 15 →
        (handleCfp st m).1 = st
        ∧ (handleCfp st m).2 = CfpOut.propose (getMeta m "incident_id")
            (st.cpuUsage + (activeMitigations st : Rat) * 10))
    ∧ st.refusedCfps ≤ (handleCfp st m).1.refusedCfps
    ∧ (handleAccept st m).refusedCfps = st.refusedCfps
    ∧ (completeMitigation st iid success now).refusedCfps = st.refusedCfps
    ∧ (cleanupStep st now).refusedCfps = st.refusedCfps
    ∧ (respResourceStep st).refusedCfps = st.refusedCfps := by
  refine ⟨?_, ?_, ?_, ?_, ?_, ?_, ?_⟩
  · intro h
    unfold handleCfp
    dsimp only
    rw [if_pos h]
    exact ⟨rfl, rfl⟩
  · intro h
    unfold handleCfp
    dsimp only
    rw [if_neg h]
    refine ⟨rfl, ?_⟩
    unfold calcScore
    rw [if_neg (by simpa using h0)]
  · unfold handleCfp
    dsimp only
    split
    · simp
    · simp
  · rfl
  · unfold completeMitigation
    split
    · rfl
    · rfl
  · rfl
  · rfl

/-- C6 witness: a saturated responder refuses and counts once; an idle
responder proposes with its availability score. -/
theorem claim_C6_witness :
    (handleCfp respStC6 {}).1 = { respStC6 with refusedCfps := 1 }
    ∧ (handleCfp respStC6 {}).2 = CfpOut.refuse none
    ∧ (handleCfp {} {}).1 = ({} : RespState)
    ∧ (handleCfp {} {}).2 = CfpOut.propose none 10 := by
  have h1 := (claim_C6_cfp_refusal respStC6 {} "" false 0
      (by with_unfolding_all decide)).1 (by with_unfolding_all decide)
  have h2 := (claim_C6_cfp_refusal {} {} "" false 0
      (by with_unfolding_all decide)).2.1 (by with_unfolding_all decide)
  refine ⟨h1.1, h1.2, ?_, ?_⟩
  · rw [h2.1]
  · rw [h2.2]
    with_unfolding_all decide

/-! ### Node death (C7) -/

theorem handleInfect_nodeDead (cfg : NConf) (st : NState) (m : Msg) (bodyText : String) :
    ((handleInfect cfg st m bodyText).1).nodeDead = st.nodeDead := by
  unfold handleInfect
  dsimp only
  repeat' split
  all_goals rfl

theorem handleExfil_nodeDead (st : NState) (m : Msg) :
    ((handleExfil st m).1).nodeDead = st.nodeDead := by
  unfold handleExfil
  dsimp only
  repeat' split
  all_goals rfl

theorem handleBackdoor_nodeDead (st : NState) (m : Msg) (bodyText : String) :
    ((handleBackdoor st m bodyText).1).nodeDead = st.nodeDead := by
  unfold handleBackdoor
  dsimp only
  repeat' split
  all_goals rfl

theorem handleLateralSpread_nodeDead (st : NState) (draws : NDraws) (m : Msg)
    (bodyText : String) :
    ((handleLateralSpread st draws m bodyText).1).nodeDead = st.nodeDead := by
  unfold handleLateralSpread
  dsimp only
  repeat' split
  all_goals rfl

theorem handleFwCmd_nodeDead (st : NState) (now : Rat) (m : Msg) (bodyText : String) :
    ((handleFwCmd st now m bodyText).1).nodeDead = st.nodeDead := rfl

theorem handleCure_nodeDead (st : NState) (draws : NDraws) :
    ((handleCure st draws).1).nodeDead = st.nodeDead := by
  unfold handleCure
  dsimp only
  repeat' split
  all_goals rfl

theorem handleForensic_nodeDead (st : NState) (draws : NDraws) :
    ((handleForensic st draws).1).nodeDead = st.nodeDead := by
  unfold handleForensic
  dsimp only
  repeat' split
  all_goals rfl

theorem handlePing_nodeDead (cfg : NConf) (st : NState) (m : Msg) :
    ((handlePing cfg st m).1).nodeDead = st.nodeDead := by
  unfold handlePing
  dsimp only
  repeat' split
  all_goals rfl

theorem handleRequest_nodeDead (cfg : NConf) (st : NState) (m : Msg) (bodyText : String) :
    ((handleRequest cfg st m bodyText).1).nodeDead = st.nodeDead := by
  unfold handleRequest
  dsimp only
  repeat' split
  all_goals rfl

theorem recvDispatch_nodeDead (cfg : NConf) (st : NState) (now : Rat)
    (draws : NDraws) (m : Msg) (bodyText : String) :
    ((recvDispatch cfg st now draws m bodyText).1).nodeDead = st.nodeDead := by
  unfold recvDispatch
  repeat' split
  all_goals simp [handleInfect_nodeDead, handleExfil_nodeDead, handleBackdoor_nodeDead,
    handleLateralSpread_nodeDead, handleFwCmd_nodeDead, handleCure_nodeDead,
    handleForensic_nodeDead, handlePing_nodeDead, handleRequest_nodeDead]

theorem vulnScan_nodeDead (st : NState) (m : Msg) (bodyLower : String) :
    ((vulnScan st m bodyLower).1).nodeDead = st.nodeDead := by
  unfold vulnScan
  dsimp only
  repeat' split
  all_goals rfl

theorem taskSchedule_nodeDead (st : NState) (now : Rat) (taskInfo : Option TaskIn) :
    (taskSchedule st now taskInfo).nodeDead = st.nodeDead := by
  unfold taskSchedule
  dsimp only
  repeat' split
  all_goals rfl

theorem recvAllowed_nodeDead (cfg : NConf) (st : NState) (now : Rat) (draws : NDraws)
    (taskMeta : Option TaskIn) (m : Msg) :
    ((recvAllowed cfg st now draws taskMeta m).1).nodeDead = st.nodeDead := by
  unfold recvAllowed
  dsimp only
  rw [recvDispatch_nodeDead, taskSchedule_nodeDead, vulnScan_nodeDead]
  split
  · rfl
  · rfl

theorem recvStep_nodeDead (cfg : NConf) (st : NState) (now : Rat) (draws : NDraws)
    (taskMeta : Option TaskIn) (m : Msg) :
    (recvStep cfg st now draws taskMeta m).st.nodeDead = st.nodeDead := by
  unfold recvStep
  dsimp only
  repeat' split
  all_goals simp [recvAllowed_nodeDead]

theorem resourceContain_nodeDead (cfg : NConf) (st1 : NState) (now cpu extra : Rat)
    (numTasks : Nat) :
    ((resourceContain cfg st1 now cpu extra numTasks).1).nodeDead = st1.nodeDead := by
  unfold resourceContain
  dsimp only
  repeat' split
  all_goals rfl

theorem healthTail_nodeDead (cfg : NConf) (st2 : NState) (acc : List Msg) (now : Rat) :
    (healthTail cfg st2 acc now).st.nodeDead = st2.nodeDead := by
  unfold healthTail
  dsimp only
  repeat' split
  all_goals rfl

/-- C7 (as amended): a dead node drops every inbound message and emits
nothing from its receive loop; its resource and worm behaviours stop; no
modelled transition ever clears the dead flag; the flag turns true exactly
when the computed CPU reaches 100, and that transition clears the tasks, sets
the CPU to zero, announces node-death to the parent router and kills the
behaviour. The lateral-movement behaviour, however, does not consult the
dead flag (see the counterexample). -/
theorem claim_C7_node_death (cfg : NConf) (st : NState) (now : Rat) (draws : NDraws)
    (taskMeta : Option TaskIn) (m : Msg) (roll : Int)
    (sample : List String → Nat → List String) :
    (st.nodeDead = true → recvStep cfg st now draws taskMeta m = ⟨st, [], []⟩)
    ∧ (st.nodeDead = true → resourceStep cfg st now = ⟨st, [], true⟩)
    ∧ (st.nodeDead = true → wormStep cfg st = ⟨st, [], true⟩)
    ∧ ((recvStep cfg st now draws taskMeta m).st.nodeDead = st.nodeDead)
    ∧ ((wormStep cfg st).st.nodeDead = st.nodeDead)
    ∧ ((lateralStep cfg st roll sample).st.nodeDead = st.nodeDead)
    ∧ ((resourceStep cfg st now).st.nodeDead
        = (st.nodeDead || decide (100 ≤ nodeCpu st now)))
    ∧ (st.nodeDead = false → 100 ≤ nodeCpu st now →
        (resourceStep cfg st now).st.activeTasks = []
        ∧ (resourceStep cfg st now).st.cpuUsage = 0
        ∧ (resourceStep cfg st now).killed = true
        ∧ (∀ r, cfg.router = some r →
            ({ toJid := some r, body := "NODE_DEATH: " ++ cfg.selfJid,
               meta := [("protocol", "node-death")] } : Msg)
              ∈ (resourceStep cfg st now).outs)) := by
  refine ⟨?_, ?_, ?_, recvStep_nodeDead cfg st now draws taskMeta m, ?_, ?_, ?_, ?_⟩
  · intro h
    unfold recvStep
    rw [if_pos h]
  · intro h
    unfold resourceStep
    rw [if_pos h]
  · intro h
    unfold wormStep
    rw [if_pos (by simp [h])]
  · unfold wormStep
    dsimp only
    repeat' split
    all_goals rfl
  · unfold lateralStep
    dsimp only
    repeat' split
    all_goals rfl
  · cases hd : st.nodeDead with
    | true => simp [resourceStep, hd]
    | false =>
      unfold resourceStep
      rw [if_neg (by simp [hd])]
      unfold resourceTick
      dsimp only
      by_cases h : 100 ≤ nodeCpu st now
      · have h2 := h
        simp only [nodeCpu] at h2
        rw [if_pos h2]
        simp [hd, h]
      · have h2 := h
        simp only [nodeCpu] at h2
        rw [if_neg h2]
        simp [healthTail_nodeDead, resourceContain_nodeDead, hd, h]
  · intro hd hcpu
    unfold resourceStep
    rw [if_neg (by simp [hd])]
    unfold resourceTick
    dsimp only
    simp only [nodeCpu] at hcpu
    rw [if_pos hcpu]
    refine ⟨rfl, rfl, rfl, ?_⟩
    intro r hr
    simp [hr]

/-- C7 counterexample: a dead but still compromised node runs its
lateral-movement behaviour and emits a LATERAL_SPREAD message, so death does
not silence the node. -/
theorem claim_C7_counterexample :
    nStC7.nodeDead = true
    ∧ (lateralStep nConfC7 nStC7 1 (fun l k => l.take k)).outs ≠ []
    ∧ (lateralStep nConfC7 nStC7 1 (fun l k => l.take k)).killed = false := by
  with_unfolding_all decide

/-- C7 witness: the dead-node guarantees applied to a concrete dead state. -/
theorem claim_C7_witness :
    recvStep nConfC7 nStC7 0 {} none msgC10 = ⟨nStC7, [], []⟩
    ∧ resourceStep nConfC7 nStC7 0 = ⟨nStC7, [], true⟩
    ∧ wormStep nConfC7 nStC7 = ⟨nStC7, [], true⟩ :=
  ⟨(claim_C7_node_death nConfC7 nStC7 0 {} none msgC10 1 (fun l k => l.take k)).1 rfl,
   (claim_C7_node_death nConfC7 nStC7 0 {} none msgC10 1 (fun l k => l.take k)).2.1 rfl,
   (claim_C7_node_death nConfC7 nStC7 0 {} none msgC10 1 (fun l k => l.take k)).2.2.1 rfl⟩

/-! ### Monitor silence window (C8) -/

/-- C8 (as amended): while a sender is silenced (a live entry in
`alerted_senders`), the traffic-analysis path ignores every message
attributed to it, leaving the monitor state untouched and emitting nothing;
in particular no CFP can be issued for it through mirrored or direct traffic.
Router-forwarded threat alerts, however, bypass the silence window (see the
counterexample). -/
theorem claim_C8_silence_window (cfg : MonConf) (st : MonState) (now : Rat) (m : Msg)
    (s : String) (e : Rat)
    (hs : monSenderOf m = s)
    (hl : lookupA st.alertedSenders s = some e)
    (hlt : now < e) :
    processMessage cfg st now m = (st, .ok [])
    ∧ (getMeta m "protocol" ≠ some "threat-alert" → monitorRun cfg st now m = (st, [])) := by
  have hpm : processMessage cfg st now m = (st, .ok []) := by
    unfold processMessage
    rw [hs]
    by_cases hw : (sContains s "response" || sContains s "monitor") = true
    · rw [if_pos hw]
    · rw [if_neg hw]
      dsimp only
      rw [hl]
      dsimp only
      rw [if_pos hlt]
  refine ⟨hpm, ?_⟩
  intro h
  have hb : (getMeta m "protocol" == some "threat-alert") = false := by
    simpa using h
  unfold monitorRun
  rw [hb]
  simp [hpm]

/-- C8 counterexample: with attacker1 silenced until time 115, a threat alert
forwarded by a router at time 100 still makes the monitor issue a CFP naming
attacker1 as offender, violating the claim for router-forwarded triggers. -/
theorem claim_C8_counterexample :
    lookupA monStC8.alertedSenders "attacker1@localhost" = some 115
    ∧ ((100 : Rat) < 115)
    ∧ (monitorRun monCfgC3 monStC8 100 msgC8).2.length = 1
    ∧ getMeta ((monitorRun monCfgC3 monStC8 100 msgC8).2.headD {}) "protocol"
        = some "cnp-cfp"
    ∧ getMeta ((monitorRun monCfgC3 monStC8 100 msgC8).2.headD {}) "offender_jid"
        = some "attacker1@localhost" := by
  with_unfolding_all decide

/-- C8 witness: a mirrored packet from the silenced sender is ignored. -/
theorem claim_C8_witness :
    processMessage monCfgC3 monStC8 100 msgC8b = (monStC8, .ok [])
    ∧ monitorRun monCfgC3 monStC8 100 msgC8b = (monStC8, []) := by
  have h := claim_C8_silence_window monCfgC3 monStC8 100 msgC8b
    "attacker1@localhost" 115 (by decide) (by decide) (by decide)
  exact ⟨h.1, h.2 (by decide)⟩

/-! ### Cure probability (C9) -/

theorem recvBlocked_cure (st : NState) : recvBlocked st cureMsg = false := by
  unfold recvBlocked
  dsimp only
  cases hsi : st.selfIsolated <;> cases hbm : st.backlogMode <;> decide

theorem nodeAllow_cure (fw : FwState) (peers : List String) (selfJid : String)
    (now : Rat) : nodeAllow fw peers selfJid now cureMsg = ⟨true, fw, []⟩ := by
  unfold nodeAllow
  rw [if_pos (show fwWlSender cureMsg.sender = true from by decide)]

theorem recvAllowed_cure (cfg : NConf) (st : NState) (now : Rat) (draws : NDraws) :
    recvAllowed cfg st now draws none cureMsg = handleCure st draws := by
  unfold recvAllowed vulnScan
  simp +decide [taskSchedule, recvDispatch]

theorem recvStep_cure (cfg : NConf) (st : NState) (now : Rat) (draws : NDraws)
    (hd : st.nodeDead = false) :
    recvStep cfg st now draws none cureMsg
      = ⟨(handleCure st draws).1, (handleCure st draws).2.1,
         (handleCure st draws).2.2⟩ := by
  unfold recvStep
  rw [if_neg (by simp [hd]), if_neg (by simp [recvBlocked_cure st])]
  dsimp only
  rw [nodeAllow_cure]
  dsimp only
  rw [recvAllowed_cure]
  simp

theorem handleCure_success (st : NState) (draws : NDraws) (i : Int)
    (hi : st.isInfected = true) (ha : st.attackerIntensity = some i) (hne : i ≠ 0)
    (hroll : draws.cureRoll < (cureRate i : Rat)) :
    handleCure st draws
      = ({ st with
            activeTasks := [], isInfected := false, malwareType := none,
            attackerIntensity := none, infectionSource := none,
            selfIsolated := false }, [], []) := by
  unfold handleCure
  rw [if_pos (by simp [hi])]
  dsimp only
  rw [ha]
  have hp : pyOrI (some i) 5 = i := by
    unfold pyOrI
    simp [hne]
  rw [hp, if_pos (by simpa [cureRate] using hroll)]

theorem handleCure_failure (st : NState) (draws : NDraws) (i : Int)
    (hi : st.isInfected = true) (ha : st.attackerIntensity = some i) (hne : i ≠ 0)
    (hroll : ¬ draws.cureRoll < (cureRate i : Rat)) :
    handleCure st draws = (st, [], []) := by
  unfold handleCure
  rw [if_pos (by simp [hi])]
  dsimp only
  rw [ha]
  have hp : pyOrI (some i) 5 = i := by
    unfold pyOrI
    simp [hne]
  rw [hp, if_neg (by simpa [cureRate] using hroll)]

theorem handleCure_uninfected (st : NState) (draws : NDraws)
    (hi : st.isInfected = false) : handleCure st draws = (st, [], []) := by
  unfold handleCure
  rw [if_neg (by simp [hi])]

/-- C9: an infected node receiving CURE_INFECTION with recorded intensity i in
1..10 is cured exactly when the uniform draw in [0,100) falls below
`max(30, min(95, 100 - 7 i))` (a threshold between 30 and 93); on success the
infection fields, active tasks and self-isolation are cleared; on failure the
whole state is untouched; an uninfected node ignores the command. -/
theorem claim_C9_cure (cfg : NConf) (st : NState) (now : Rat) (draws : NDraws)
    (i : Int) (hd : st.nodeDead = false) (hi : st.isInfected = true)
    (ha : st.attackerIntensity = some i) (h1 : 1 ≤ i) (h10 : i ≤ 10) :
    (30 ≤ cureRate i ∧ cureRate i ≤ 93)
    ∧ (draws.cureRoll < (cureRate i : Rat) →
        recvStep cfg st now draws none cureMsg
          = ⟨{ st with
                activeTasks := [], isInfected := false, malwareType := none,
                attackerIntensity := none, infectionSource := none,
                selfIsolated := false }, [], []⟩)
    ∧ (¬ draws.cureRoll < (cureRate i : Rat) →
        recvStep cfg st now draws none cureMsg = ⟨st, [], []⟩)
    ∧ (∀ st2 : NState, st2.nodeDead = false → st2.isInfected = false →
        recvStep cfg st2 now draws none cureMsg = ⟨st2, [], []⟩) := by
  refine ⟨?_, ?_, ?_, ?_⟩
  · unfold cureRate
    omega
  · intro hroll
    rw [recvStep_cure cfg st now draws hd,
        handleCure_success st draws i hi ha (by omega) hroll]
  · intro hroll
    rw [recvStep_cure cfg st now draws hd,
        handleCure_failure st draws i hi ha (by omega) hroll]
  · intro st2 hd2 hi2
    rw [recvStep_cure cfg st2 now draws hd2, handleCure_uninfected st2 draws hi2]

/-- C9 witness: intensity 4 gives threshold 72; a draw of 50 cures the node
and a draw of 80 leaves it infected. -/
theorem claim_C9_witness :
    cureRate 4 = 72
    ∧ recvStep nConfC7 nStC9 0 { cureRoll := 50 } none cureMsg
        = ⟨{ nStC9 with
              activeTasks := [], isInfected := false, malwareType := none,
              attackerIntensity := none, infectionSource := none,
              selfIsolated := false }, [], []⟩
    ∧ recvStep nConfC7 nStC9 0 { cureRoll := 80 } none cureMsg = ⟨nStC9, [], []⟩ := by
  refine ⟨by decide, ?_, ?_⟩
  · exact (claim_C9_cure nConfC7 nStC9 0 { cureRoll := 50 } 4 rfl rfl rfl
      (by decide) (by decide)).2.1 (by with_unfolding_all decide)
  · exact (claim_C9_cure nConfC7 nStC9 0 { cureRoll := 80 } 4 rfl rfl rfl
      (by decide) (by decide)).2.2.1 (by with_unfolding_all decide)

/-! ### Keyword infection (C10) -/

theorem vulnScan_hit (st : NState) (m : Msg) (bodyLower : String)
    (hi : st.isInfected = false)
    (hkw : infectionKeywords.any (fun kw => sContains bodyLower kw) = true) :
    vulnScan st m bodyLower
      = ({ st with attackerIntensity := some (pyIntOr (getMeta m "attacker_intensity") 5), isInfected := true },
         [StartB.worm 10]) := by
  unfold vulnScan
  rw [if_pos (by simp [hi, hkw])]

theorem vulnScan_miss (st : NState) (m : Msg) (bodyLower : String)
    (hnkw : infectionKeywords.any (fun kw => sContains bodyLower kw) = false) :
    vulnScan st m bodyLower = (st, []) := by
  unfold vulnScan
  rw [if_neg (by simp [hnkw])]

theorem taskSchedule_infFields (st : NState) (now : Rat) (taskInfo : Option TaskIn) :
    (taskSchedule st now taskInfo).isInfected = st.isInfected
    ∧ (taskSchedule st now taskInfo).attackerIntensity = st.attackerIntensity := by
  unfold taskSchedule
  cases taskInfo with
  | none => exact ⟨rfl, rfl⟩
  | some t =>
    dsimp only
    split_ifs <;> exact ⟨rfl, rfl⟩

theorem handleInfect_infected (cfg : NConf) (st : NState) (m : Msg) (bodyText : String)
    (hi : st.isInfected = true) :
    handleInfect cfg st m bodyText = (st, [], []) := by
  unfold handleInfect
  dsimp only
  rw [if_neg (by simp [hi])]

theorem handleExfil_infFields (st : NState) (m : Msg) :
    ((handleExfil st m).1).isInfected = st.isInfected
    ∧ ((handleExfil st m).1).attackerIntensity = st.attackerIntensity := by
  refine ⟨?_, ?_⟩ <;> (unfold handleExfil; dsimp only; repeat' split; all_goals rfl)

theorem handleBackdoor_infFields (st : NState) (m : Msg) (bodyText : String) :
    ((handleBackdoor st m bodyText).1).isInfected = st.isInfected
    ∧ ((handleBackdoor st m bodyText).1).attackerIntensity = st.attackerIntensity := by
  refine ⟨?_, ?_⟩ <;> (unfold handleBackdoor; dsimp only; repeat' split; all_goals rfl)

theorem handleLateralSpread_infFields (st : NState) (draws : NDraws) (m : Msg)
    (bodyText : String) :
    ((handleLateralSpread st draws m bodyText).1).isInfected = st.isInfected
    ∧ ((handleLateralSpread st draws m bodyText).1).attackerIntensity
        = st.attackerIntensity := by
  refine ⟨?_, ?_⟩ <;> (unfold handleLateralSpread; dsimp only; repeat' split) <;> rfl

theorem handleFwCmd_infFields (st : NState) (now : Rat) (m : Msg) (bodyText : String) :
    ((handleFwCmd st now m bodyText).1).isInfected = st.isInfected
    ∧ ((handleFwCmd st now m bodyText).1).attackerIntensity = st.attackerIntensity :=
  ⟨rfl, rfl⟩

theorem handleForensic_infFields (st : NState) (draws : NDraws) :
    ((handleForensic st draws).1).isInfected = st.isInfected
    ∧ ((handleForensic st draws).1).attackerIntensity = st.attackerIntensity := by
  refine ⟨?_, ?_⟩ <;> (unfold handleForensic; dsimp only; repeat' split) <;> rfl

theorem handlePing_infFields (cfg : NConf) (st : NState) (m : Msg) :
    ((handlePing cfg st m).1).isInfected = st.isInfected
    ∧ ((handlePing cfg st m).1).attackerIntensity = st.attackerIntensity := by
  refine ⟨?_, ?_⟩ <;> (unfold handlePing; dsimp only; repeat' split; all_goals rfl)

theorem handleRequest_infFields (cfg : NConf) (st : NState) (m : Msg) (bodyText : String) :
    ((handleRequest cfg st m bodyText).1).isInfected = st.isInfected
    ∧ ((handleRequest cfg st m bodyText).1).attackerIntensity = st.attackerIntensity := by
  refine ⟨?_, ?_⟩ <;> (unfold handleRequest; dsimp only; repeat' split; all_goals rfl)

theorem recvDispatch_infected (cfg : NConf) (st : NState) (now : Rat) (draws : NDraws)
    (m : Msg) (bodyText : String) (hi : st.isInfected = true)
    (hcure : sStarts bodyText "CURE_INFECTION" = false) :
    ((recvDispatch cfg st now draws m bodyText).1).isInfected = st.isInfected
    ∧ ((recvDispatch cfg st now draws m bodyText).1).attackerIntensity
        = st.attackerIntensity := by
  unfold recvDispatch
  repeat' split
  all_goals first
    | (rw [handleInfect_infected cfg st m bodyText hi]; exact ⟨rfl, rfl⟩)
    | exact handleExfil_infFields st m
    | exact handleBackdoor_infFields st m bodyText
    | exact handleLateralSpread_infFields st draws m bodyText
    | exact handleFwCmd_infFields st now m bodyText
    | exact handleForensic_infFields st draws
    | exact handlePing_infFields cfg st m
    | exact handleRequest_infFields cfg st m bodyText
    | exact ⟨rfl, rfl⟩
    | simp_all

theorem handleExfil_uninfected (st : NState) (m : Msg) (hi : st.isInfected = false) :
    ((handleExfil st m).1).isInfected = false
    ∧ ∀ p : Rat, StartB.worm p ∉ (handleExfil st m).2.2 := by
  refine ⟨?_, fun p => ?_⟩ <;> (unfold handleExfil; dsimp only; repeat' split) <;> simp_all

theorem handleBackdoor_uninfected (st : NState) (m : Msg) (bodyText : String)
    (hi : st.isInfected = false) :
    ((handleBackdoor st m bodyText).1).isInfected = false
    ∧ ∀ p : Rat, StartB.worm p ∉ (handleBackdoor st m bodyText).2.2 := by
  refine ⟨?_, fun p => ?_⟩ <;> (unfold handleBackdoor; dsimp only; repeat' split) <;> simp_all

theorem handleLateralSpread_uninfected (st : NState) (draws : NDraws) (m : Msg)
    (bodyText : String) (hi : st.isInfected = false) :
    ((handleLateralSpread st draws m bodyText).1).isInfected = false
    ∧ ∀ p : Rat, StartB.worm p ∉ (handleLateralSpread st draws m bodyText).2.2 := by
  refine ⟨?_, fun p => ?_⟩ <;> (unfold handleLateralSpread; dsimp only; repeat' split)
    <;> simp_all

theorem handleFwCmd_uninfected (st : NState) (now : Rat) (m : Msg) (bodyText : String)
    (hi : st.isInfected = false) :
    ((handleFwCmd st now m bodyText).1).isInfected = false
    ∧ ∀ p : Rat, StartB.worm p ∉ (handleFwCmd st now m bodyText).2.2 := by
  refine ⟨?_, fun p => ?_⟩ <;> (unfold handleFwCmd; dsimp only) <;> simp_all

theorem handleCure_uninfEq (st : NState) (draws : NDraws) (hi : st.isInfected = false) :
    ((handleCure st draws).1).isInfected = false
    ∧ ∀ p : Rat, StartB.worm p ∉ (handleCure st draws).2.2 := by
  refine ⟨?_, fun p => ?_⟩ <;> (unfold handleCure; dsimp only; repeat' split) <;> simp_all

theorem handleForensic_uninfected (st : NState) (draws : NDraws)
    (hi : st.isInfected = false) :
    ((handleForensic st draws).1).isInfected = false
    ∧ ∀ p : Rat, StartB.worm p ∉ (handleForensic st draws).2.2 := by
  refine ⟨?_, fun p => ?_⟩ <;> (unfold handleForensic; dsimp only; repeat' split) <;> simp_all

theorem handlePing_uninfected (cfg : NConf) (st : NState) (m : Msg)
    (hi : st.isInfected = false) :
    ((handlePing cfg st m).1).isInfected = false
    ∧ ∀ p : Rat, StartB.worm p ∉ (handlePing cfg st m).2.2 := by
  refine ⟨?_, fun p => ?_⟩ <;> (unfold handlePing; dsimp only; repeat' split) <;> simp_all

theorem handleRequest_uninfected (cfg : NConf) (st : NState) (m : Msg) (bodyText : String)
    (hi : st.isInfected = false) :
    ((handleRequest cfg st m bodyText).1).isInfected = false
    ∧ ∀ p : Rat, StartB.worm p ∉ (handleRequest cfg st m bodyText).2.2 := by
  refine ⟨?_, fun p => ?_⟩ <;> (unfold handleRequest; dsimp only; repeat' split) <;> simp_all

theorem recvDispatch_uninfected (cfg : NConf) (st : NState) (now : Rat) (draws : NDraws)
    (m : Msg) (bodyText : String) (hi : st.isInfected = false)
    (hninf : sStarts bodyText "INFECT:" = false) :
    ((recvDispatch cfg st now draws m bodyText).1).isInfected = false
    ∧ ∀ p : Rat, StartB.worm p ∉ (recvDispatch cfg st now draws m bodyText).2.2 := by
  unfold recvDispatch
  repeat' split
  all_goals first
    | exact handleExfil_uninfected st m hi
    | exact handleBackdoor_uninfected st m bodyText hi
    | exact handleLateralSpread_uninfected st draws m bodyText hi
    | exact handleFwCmd_uninfected st now m bodyText hi
    | exact handleCure_uninfEq st draws hi
    | exact handleForensic_uninfected st draws hi
    | exact handlePing_uninfected cfg st m hi
    | exact handleRequest_uninfected cfg st m bodyText hi
    | exact ⟨hi, fun p => List.not_mem_nil _⟩
    | simp_all

theorem recvStep_allowed (cfg : NConf) (st : NState) (now : Rat) (draws : NDraws)
    (taskMeta : Option TaskIn) (m : Msg)
    (hd : st.nodeDead = false) (hnb : recvBlocked st m = false)
    (hfa : (nodeAllow st.fw cfg.peers cfg.selfJid now m).allowed = true) :
    recvStep cfg st now draws taskMeta m
      = ⟨(recvAllowed cfg { st with fw := (nodeAllow st.fw cfg.peers cfg.selfJid now m).st } now draws taskMeta m).1,
         (nodeAllow st.fw cfg.peers cfg.selfJid now m).alerts
           ++ (recvAllowed cfg { st with fw := (nodeAllow st.fw cfg.peers cfg.selfJid now m).st } now draws taskMeta m).2.1,
         (recvAllowed cfg { st with fw := (nodeAllow st.fw cfg.peers cfg.selfJid now m).st } now draws taskMeta m).2.2⟩ := by
  unfold recvStep
  rw [if_neg (by simp [hd]), if_neg (by simp [hnb])]
  dsimp only
  rw [if_neg (by simp [hfa])]

theorem recvAllowed_keywordHit (cfg : NConf) (st : NState) (now : Rat) (draws : NDraws)
    (taskMeta : Option TaskIn) (m : Msg) (hi : st.isInfected = false)
    (hkw : infectionKeywords.any (fun kw => sContains (lowerStr (stripStr m.body)) kw) = true)
    (hcure : sStarts (stripStr m.body) "CURE_INFECTION" = false) :
    ((recvAllowed cfg st now draws taskMeta m).1).isInfected = true
    ∧ ((recvAllowed cfg st now draws taskMeta m).1).attackerIntensity
        = some (pyIntOr (getMeta m "attacker_intensity") 5)
    ∧ StartB.worm 10 ∈ (recvAllowed cfg st now draws taskMeta m).2.2 := by
  unfold recvAllowed
  dsimp only
  generalize hstB : ((if getMeta m "protocol" == some "attack" then { st with ddosReceived := st.ddosReceived + 1 } else st : NState)) = stB
  have hiB : stB.isInfected = false := by
    rw [← hstB]
    split <;> exact hi
  rw [vulnScan_hit stB m (lowerStr (stripStr m.body)) hiB hkw]
  dsimp only
  set stC := ({ stB with attackerIntensity := some (pyIntOr (getMeta m "attacker_intensity") 5), isInfected := true } : NState) with hstC
  set tI := (if stC.selfIsolated && (upperStr (stripStr m.body) == "PING") then none else taskMeta : Option TaskIn) with htI
  have hT := taskSchedule_infFields stC now tI
  have hC1 : stC.isInfected = true := by rw [hstC]
  have hC2 : stC.attackerIntensity = some (pyIntOr (getMeta m "attacker_intensity") 5) := by
    rw [hstC]
  have hD1 : (taskSchedule stC now tI).isInfected = true := hT.1.trans hC1
  have hD2 : (taskSchedule stC now tI).attackerIntensity
      = some (pyIntOr (getMeta m "attacker_intensity") 5) := hT.2.trans hC2
  have hR := recvDispatch_infected cfg (taskSchedule stC now tI) now draws m
    (stripStr m.body) hD1 hcure
  exact ⟨hR.1.trans hD1, hR.2.trans hD2, by simp⟩

theorem recvAllowed_noKeyword (cfg : NConf) (st : NState) (now : Rat) (draws : NDraws)
    (taskMeta : Option TaskIn) (m : Msg) (hi : st.isInfected = false)
    (hnkw : infectionKeywords.any (fun kw => sContains (lowerStr (stripStr m.body)) kw) = false)
    (hninf : sStarts (stripStr m.body) "INFECT:" = false) :
    ((recvAllowed cfg st now draws taskMeta m).1).isInfected = false
    ∧ ∀ p : Rat, StartB.worm p ∉ (recvAllowed cfg st now draws taskMeta m).2.2 := by
  unfold recvAllowed
  dsimp only
  generalize hstB : ((if getMeta m "protocol" == some "attack" then { st with ddosReceived := st.ddosReceived + 1 } else st : NState)) = stB
  have hiB : stB.isInfected = false := by
    rw [← hstB]
    split <;> exact hi
  rw [vulnScan_miss stB m (lowerStr (stripStr m.body)) hnkw]
  dsimp only
  set tI := (if stB.selfIsolated && (upperStr (stripStr m.body) == "PING") then none else taskMeta : Option TaskIn) with htI
  have hD1 : (taskSchedule stB now tI).isInfected = false :=
    (taskSchedule_infFields stB now tI).1.trans hiB
  have hR := recvDispatch_uninfected cfg (taskSchedule stB now tI) now draws m
    (stripStr m.body) hD1 hninf
  refine ⟨hR.1, fun p => ?_⟩
  simpa using hR.2 p

/-- C10: the vulnerability scan runs on every message that passes the node
pre-checks and the firewall, before and independently of the `INFECT:`
dispatch: if the node is healthy and the lowercased stripped body contains one
of the keywords trojan, worm, exploit or ransomware (and the body is not a
CURE_INFECTION command), the node marks itself infected, records the attacker
intensity from the metadata (default 5) and starts worm propagation with a
10-second period, whatever the protocol; without such a keyword (and without
the `INFECT:` prefix) the node stays uninfected and starts no worm behaviour,
so bodies mentioning only `virus` or `malware` never trigger this path. -/
theorem claim_C10_keyword_infection (cfg : NConf) (st : NState) (now : Rat)
    (draws : NDraws) (taskMeta : Option TaskIn) (m : Msg)
    (hd : st.nodeDead = false) (hnb : recvBlocked st m = false)
    (hfa : (nodeAllow st.fw cfg.peers cfg.selfJid now m).allowed = true)
    (hi : st.isInfected = false) :
    infectionKeywords = ["trojan", "worm", "exploit", "ransomware"]
    ∧ (infectionKeywords.any (fun kw => sContains (lowerStr (stripStr m.body)) kw) = true →
        sStarts (stripStr m.body) "CURE_INFECTION" = false →
        ((recvStep cfg st now draws taskMeta m).st.isInfected = true
         ∧ (recvStep cfg st now draws taskMeta m).st.attackerIntensity
             = some (pyIntOr (getMeta m "attacker_intensity") 5)
         ∧ StartB.worm 10 ∈ (recvStep cfg st now draws taskMeta m).started))
    ∧ (infectionKeywords.any (fun kw => sContains (lowerStr (stripStr m.body)) kw) = false →
        sStarts (stripStr m.body) "INFECT:" = false →
        ((recvStep cfg st now draws taskMeta m).st.isInfected = false
         ∧ ∀ p : Rat, StartB.worm p ∉ (recvStep cfg st now draws taskMeta m).started)) := by
  refine ⟨rfl, ?_, ?_⟩
  · intro hkw hcure
    rw [recvStep_allowed cfg st now draws taskMeta m hd hnb hfa]
    exact recvAllowed_keywordHit cfg _ now draws taskMeta m hi hkw hcure
  · intro hnkw hninf
    rw [recvStep_allowed cfg st now draws taskMeta m hd hnb hfa]
    exact recvAllowed_noKeyword cfg _ now draws taskMeta m hi hnkw hninf

/-- C10 witness: an attack-protocol body `this worm spreads` with intensity 7
infects a fresh node and starts the 10-second worm behaviour, while the body
`virus malware` under the same wiring leaves the node healthy. -/
theorem claim_C10_witness :
    ((recvStep nConfC7 {} 0 {} none msgC10).st.isInfected = true
     ∧ (recvStep nConfC7 {} 0 {} none msgC10).st.attackerIntensity = some 7
     ∧ StartB.worm 10 ∈ (recvStep nConfC7 {} 0 {} none msgC10).started)
    ∧ ((recvStep nConfC7 {} 0 {} none msgC10b).st.isInfected = false
       ∧ ∀ p : Rat, StartB.worm p ∉ (recvStep nConfC7 {} 0 {} none msgC10b).started) := by
  constructor
  · have h := (claim_C10_keyword_infection nConfC7 {} 0 {} none msgC10 rfl (by decide)
      (by with_unfolding_all decide) rfl).2.1 (by decide) (by decide)
    exact ⟨h.1, h.2.1.trans (by decide), h.2.2⟩
  · exact (claim_C10_keyword_infection nConfC7 {} 0 {} none msgC10b rfl (by decide)
      (by with_unfolding_all decide) rfl).2.2 (by decide) (by decide)

end IDS
